import Mathlib

/-!
Verification development for the rofuse library: a shallow embedding of
the FUSE wire-protocol engine (request dispatch, read-only rejection,
response framing, directory-entry serialization, INIT negotiation) with
theorems about its observable behaviour.

Machine integers are modelled as `Nat`/`Int` with explicit reductions
modulo 2^w at the points where the Go source performs a conversion
(`uint32(...)`, `uint64(...)`, `int32(...)`) or where a fixed-width Go
type makes arithmetic wrap.
-/

namespace Rofuse

/-! ## Byte-level helpers (encoding/binary, little-endian) -/

/-- Little-endian encoding of a 16-bit value (binary.LittleEndian.PutUint16). -/
def putU16 (n : Nat) : List Nat :=
  [n % 256, n / 256 % 256]

/-- Little-endian encoding of a 32-bit value (binary.LittleEndian.PutUint32). -/
def putU32 (n : Nat) : List Nat :=
  [n % 256, n / 256 % 256, n / 65536 % 256, n / 16777216 % 256]

/-- Little-endian encoding of a 64-bit value (binary.LittleEndian.PutUint64). -/
def putU64 (n : Nat) : List Nat :=
  [n % 256, n / 256 % 256, n / 65536 % 256, n / 16777216 % 256,
   n / 4294967296 % 256, n / 1099511627776 % 256,
   n / 281474976710656 % 256, n / 72057594037927936 % 256]

/-- Little-endian decode of a 32-bit value from a byte list at offset `i`. -/
def getU32L (l : List Nat) (i : Nat) : Nat :=
  l.getD i 0 + 256 * l.getD (i + 1) 0 + 65536 * l.getD (i + 2) 0 +
    16777216 * l.getD (i + 3) 0

/-- Little-endian decode of a 64-bit value from a byte list at offset `i`. -/
def getU64L (l : List Nat) (i : Nat) : Nat :=
  l.getD i 0 + 256 * l.getD (i + 1) 0 + 65536 * l.getD (i + 2) 0 +
    16777216 * l.getD (i + 3) 0 + 4294967296 * l.getD (i + 4) 0 +
    1099511627776 * l.getD (i + 5) 0 + 281474976710656 * l.getD (i + 6) 0 +
    72057594037927936 * l.getD (i + 7) 0

/-- Go conversion `uint32(x)` applied to a signed value: two's complement bits. -/
def uint32OfInt (x : Int) : Nat :=
  (x % (4294967296 : Int)).toNat

/-- Reading a `uint32` bit pattern as Go `int32`. -/
def int32OfUint32 (n : Nat) : Int :=
  if n % 4294967296 < 2147483648 then ((n % 4294967296 : Nat) : Int)
  else ((n % 4294967296 : Nat) : Int) - 4294967296

/-- Go negation of an `int32` value (wraps at the minimum value). -/
def int32Neg (x : Int) : Int :=
  if x = -2147483648 then x else -x

/-- Reading a `uint64` value as Go `int64` (the cast `int64(in.Offset)`). -/
def int64OfUint64 (n : Nat) : Int :=
  if n % 18446744073709551616 < 9223372036854775808 then
    ((n % 18446744073709551616 : Nat) : Int)
  else ((n % 18446744073709551616 : Nat) : Int) - 18446744073709551616

/-! ## Wire-protocol constants (src/proto) -/

def OpLookup : Nat := 1
def OpForget : Nat := 2
def OpGetattr : Nat := 3
def OpSetattr : Nat := 4
def OpReadlink : Nat := 5
def OpSymlink : Nat := 6
def OpMknod : Nat := 8
def OpMkdir : Nat := 9
def OpUnlink : Nat := 10
def OpRmdir : Nat := 11
def OpRename : Nat := 12
def OpLink : Nat := 13
def OpOpen : Nat := 14
def OpRead : Nat := 15
def OpWrite : Nat := 16
def OpStatfs : Nat := 17
def OpRelease : Nat := 18
def OpSetxattr : Nat := 21
def OpRemovexattr : Nat := 24
def OpFlush : Nat := 25
def OpInit : Nat := 26
def OpOpendir : Nat := 27
def OpReaddir : Nat := 28
def OpReleasedir : Nat := 29
def OpAccess : Nat := 34
def OpCreate : Nat := 35
def OpInterrupt : Nat := 36
def OpDestroy : Nat := 38
def OpBatchForget : Nat := 42
def OpFallocate : Nat := 43
def OpReaddirplus : Nat := 44
def OpRename2 : Nat := 45
def OpCopyFileRange : Nat := 47
def OpTmpfile : Nat := 51

def InHeaderSize : Nat := 40
def OutHeaderSize : Nat := 16
def AttrSize : Nat := 88
def EntryOutSize : Nat := 128
def DirentSize : Nat := 24
def DirentPlusSize : Nat := EntryOutSize + DirentSize
def BatchForgetInSize : Nat := 8
def ForgetOneSize : Nat := 16
def InitOutSize : Nat := 64

def FuseKernelVersion : Nat := 7
def FuseKernelMinorVersion : Nat := 41
def MinSupportedMinor : Nat := 26
def DefaultMaxPages : Nat := 32
def DefaultTimeGran : Nat := 1

def GetattrFh : Nat := 1

/-- Capability flags (uint64 constants in src/proto). -/
def CapAsyncRead : Nat := 1
def CapExportSupport : Nat := 16
def CapAutoInvalData : Nat := 4096
def CapReaddirplus : Nat := 8192
def CapReaddirplusAuto : Nat := 16384
def CapParallelDirops : Nat := 262144
def CapMaxPages : Nat := 4194304
def CapCacheSymlinks : Nat := 8388608

/-- File-type constants for directory entries (DT_*). -/
def DtBlk : Nat := 6
def DtChr : Nat := 2
def DtDir : Nat := 4
def DtFifo : Nat := 1
def DtLnk : Nat := 10
def DtReg : Nat := 8
def DtSock : Nat := 12

/-- proto file-mode bits (S_IF*). -/
def ModeSocket : Nat := 49152
def ModeSymlink : Nat := 40960
def ModeRegular : Nat := 32768
def ModeBlock : Nat := 24576
def ModeDir : Nat := 16384
def ModeChar : Nat := 8192
def ModeFifo : Nat := 4096
def ModeSetuid : Nat := 2048
def ModeSetgid : Nat := 1024
def ModeSticky : Nat := 512

/-- Go os.FileMode bits. -/
def OsModeDir : Nat := 2147483648
def OsModeSymlink : Nat := 134217728
def OsModeDevice : Nat := 67108864
def OsModeNamedPipe : Nat := 33554432
def OsModeSocket : Nat := 16777216
def OsModeSetuid : Nat := 8388608
def OsModeSetgid : Nat := 4194304
def OsModeCharDevice : Nat := 2097152
def OsModeSticky : Nat := 1048576
def OsModeIrregular : Nat := 524288

/-- os.ModeType: the mask used by FileMode.Type(). -/
def OsModeType : Nat :=
  OsModeDir ||| OsModeSymlink ||| OsModeNamedPipe ||| OsModeSocket |||
    OsModeDevice ||| OsModeCharDevice ||| OsModeIrregular

/-- Linux errno values used by the library. -/
def ENOENT : Nat := 2
def EINTR : Nat := 4
def EIOVal : Nat := 5
def EBADF : Nat := 9
def EACCES : Nat := 13
def EEXIST : Nat := 17
def EINVAL : Nat := 22
def EROFS : Nat := 30
def ENOSYS : Nat := 38
def EPROTO : Nat := 71
def ETIMEDOUT : Nat := 110

/-! ## Go error model and toErrno (src/mount.go) -/

/-- The Go errors a filesystem callback (or the library itself) can produce,
as distinguished by `toErrno`. -/
inductive GoError where
  | errnoVal (n : Nat)
  | notExist
  | exist
  | permission
  | closed
  | invalid
  | eof
  | canceled
  | deadline
  | other
deriving DecidableEq, Repr

/-- toErrno converts a Go error to a FUSE errno value: 0 for nil, otherwise
`-int32(errno)` for a syscall.Errno, else the fixed mapping, else -EIO. -/
def toErrno : Option GoError → Int
  | none => 0
  | some (.errnoVal n) => int32Neg (int32OfUint32 n)
  | some .notExist => -(ENOENT : Int)
  | some .exist => -(EEXIST : Int)
  | some .permission => -(EACCES : Int)
  | some .closed => -(EBADF : Int)
  | some .invalid => -(EINVAL : Int)
  | some .eof => 0
  | some .canceled => -(EINTR : Int)
  | some .deadline => -(ETIMEDOUT : Int)
  | some .other => -(EIOVal : Int)

/-! ## User-facing data model (src/mount.go types) -/

/-- A Go time.Time reduced to what attrToProto reads: Unix() and Nanosecond(). -/
structure GoTime where
  unix : Int
  nsec : Nat
deriving DecidableEq, Repr

/-- User-level attributes (rofuse.Attr). -/
structure Attr where
  Ino : Nat
  Size : Nat
  Blocks : Nat
  Atime : GoTime
  Mtime : GoTime
  Ctime : GoTime
  Mode : Nat
  Nlink : Nat
  Uid : Nat
  Gid : Nat
  Rdev : Nat
  Blksize : Nat
deriving DecidableEq, Repr

/-- Lookup result (rofuse.Entry); timeouts are time.Duration = int64 nanoseconds. -/
structure Entry where
  Ino : Nat
  Generation : Nat
  Attr : Attr
  AttrTimeout : Int
  EntryTimeout : Int
deriving DecidableEq, Repr

/-- Directory entry for ReadDir (rofuse.DirEntry); Name as raw bytes.
The source field `Type` is spelled `Typ` here (Type is a Lean keyword). -/
structure DirEntry where
  Ino : Nat
  Offset : Nat
  Typ : Nat
  Name : List Nat
deriving DecidableEq, Repr

/-- Directory entry with attributes for ReadDirPlus (rofuse.DirEntryPlus). -/
structure DirEntryPlus where
  Entry : Entry
  Name : List Nat
deriving DecidableEq, Repr

/-- Result of Open/OpenDir (rofuse.OpenResponse). -/
structure OpenResponse where
  Handle : Nat
  Flags : Nat
deriving DecidableEq, Repr

/-- Filesystem statistics (rofuse.StatFS). -/
structure StatFSData where
  Blocks : Nat
  Bfree : Nat
  Bavail : Nat
  Files : Nat
  Ffree : Nat
  Bsize : Nat
  Namelen : Nat
  Frsize : Nat
deriving DecidableEq, Repr

/-- BatchForget entry (rofuse.ForgetEntry). -/
structure ForgetEntry where
  Ino : Nat
  Nlookup : Nat
deriving DecidableEq, Repr

/-- Negotiated configuration handed to Filesystem.Init (rofuse.Config). -/
structure Config where
  ProtoMajor : Nat
  ProtoMinor : Nat
  MaxReadahead : Nat
  MaxWrite : Nat
  MaxPages : Nat
deriving DecidableEq, Repr

/-- The FUSE context visible to the filesystem: uid, gid, pid, unique. -/
structure Ctx where
  uid : Nat
  gid : Nat
  pid : Nat
  unique : Nat
deriving DecidableEq, Repr

/-- Mount options relevant to the dispatcher (rofuse.MountOptions after
Mount applied its defaults). -/
structure MountOptions where
  Debug : Bool
  MaxReadahead : Nat
  MaxWrite : Nat
  MaxBackground : Nat
deriving DecidableEq, Repr

/-! ## Wire records built by the library (src/proto, src/README handlers) -/

/-- proto.Attr: the wire attribute record. -/
structure ProtoAttr where
  Ino : Nat
  Size : Nat
  Blocks : Nat
  Atime : Nat
  Mtime : Nat
  Ctime : Nat
  AtimeNsec : Nat
  MtimeNsec : Nat
  CtimeNsec : Nat
  Mode : Nat
  Nlink : Nat
  Uid : Nat
  Gid : Nat
  Rdev : Nat
  Blksize : Nat
  Flags : Nat
deriving DecidableEq, Repr

/-- proto.EntryOut. -/
structure EntryOut where
  NodeID : Nat
  Generation : Nat
  EntryValid : Nat
  AttrValid : Nat
  EntryValidNsec : Nat
  AttrValidNsec : Nat
  Attr : ProtoAttr
deriving DecidableEq, Repr

/-- proto.AttrOut. -/
structure AttrOut where
  AttrValid : Nat
  AttrValidNsec : Nat
  Dummy : Nat
  Attr : ProtoAttr
deriving DecidableEq, Repr

/-- proto.OpenOut. -/
structure OpenOut where
  Fh : Nat
  OpenFlags : Nat
  Padding : Nat
deriving DecidableEq, Repr

/-- proto.InitOut. -/
structure InitOut where
  Major : Nat
  Minor : Nat
  MaxReadahead : Nat
  Flags : Nat
  MaxBackground : Nat
  CongestionThreshold : Nat
  MaxWrite : Nat
  TimeGran : Nat
  MaxPages : Nat
  MapAlignment : Nat
  Flags2 : Nat
  MaxStackDepth : Nat
deriving DecidableEq, Repr

/-! ## Conversion helpers (src/mount.go) -/

/-- durationToTimespec converts a time.Duration (int64 nanoseconds) to
`(sec, nsec)`: `sec = uint64(d / time.Second)`,
`nsec = uint32((d % time.Second) / time.Nanosecond)`.
Go `/` and `%` on int64 truncate toward zero. -/
def durationToTimespec (d : Int) : Nat × Nat :=
  (((d.tdiv 1000000000) % (18446744073709551616 : Int)).toNat,
   ((d.tmod 1000000000) % (4294967296 : Int)).toNat)

/-- Go os.FileMode.Type(): the mode masked with os.ModeType. -/
def goModeType (m : Nat) : Nat := m &&& OsModeType

/-- fileModeToUnix converts os.FileMode to S_IF* wire mode bits. -/
def fileModeToUnix (m : Nat) : Nat :=
  let perm := m &&& 511
  let typed :=
    if goModeType m = OsModeDir then perm ||| ModeDir
    else if goModeType m = OsModeSymlink then perm ||| ModeSymlink
    else if goModeType m = OsModeNamedPipe then perm ||| ModeFifo
    else if goModeType m = OsModeSocket then perm ||| ModeSocket
    else if goModeType m = OsModeDevice then
      (if m &&& OsModeCharDevice ≠ 0 then perm ||| ModeChar
       else perm ||| ModeBlock)
    else perm ||| ModeRegular
  let typed := if m &&& OsModeSetuid ≠ 0 then typed ||| ModeSetuid else typed
  let typed := if m &&& OsModeSetgid ≠ 0 then typed ||| ModeSetgid else typed
  if m &&& OsModeSticky ≠ 0 then typed ||| ModeSticky else typed

/-- fileModeToType converts os.FileMode to a DT_* constant. -/
def fileModeToType (m : Nat) : Nat :=
  if goModeType m = OsModeDir then DtDir
  else if goModeType m = OsModeSymlink then DtLnk
  else if goModeType m = OsModeNamedPipe then DtFifo
  else if goModeType m = OsModeSocket then DtSock
  else if goModeType m = OsModeDevice then
    (if m &&& OsModeCharDevice ≠ 0 then DtChr else DtBlk)
  else DtReg

/-- attrToProto converts user attributes to the wire record. -/
def attrToProto (a : Attr) : ProtoAttr :=
  ⟨a.Ino % 18446744073709551616, a.Size, a.Blocks,
   (a.Atime.unix % (18446744073709551616 : Int)).toNat,
   (a.Mtime.unix % (18446744073709551616 : Int)).toNat,
   (a.Ctime.unix % (18446744073709551616 : Int)).toNat,
   a.Atime.nsec % 4294967296, a.Mtime.nsec % 4294967296,
   a.Ctime.nsec % 4294967296,
   fileModeToUnix a.Mode, a.Nlink, a.Uid, a.Gid, a.Rdev, a.Blksize, 0⟩

/-- entryToProto converts an Entry to an EntryOut, converting the two cache
timeouts with durationToTimespec. -/
def entryToProto (e : Entry) : EntryOut :=
  ⟨e.Ino % 18446744073709551616, e.Generation,
   (durationToTimespec e.EntryTimeout).1,
   (durationToTimespec e.AttrTimeout).1,
   (durationToTimespec e.EntryTimeout).2,
   (durationToTimespec e.AttrTimeout).2,
   attrToProto e.Attr⟩

/-! ## Response payload serializers (src/README helper functions) -/

/-- writeAttr serializes a proto.Attr (88 bytes). -/
def writeAttr (a : ProtoAttr) : List Nat :=
  putU64 a.Ino ++ putU64 a.Size ++ putU64 a.Blocks ++ putU64 a.Atime ++
    putU64 a.Mtime ++ putU64 a.Ctime ++ putU32 a.AtimeNsec ++
    putU32 a.MtimeNsec ++ putU32 a.CtimeNsec ++ putU32 a.Mode ++
    putU32 a.Nlink ++ putU32 a.Uid ++ putU32 a.Gid ++ putU32 a.Rdev ++
    putU32 a.Blksize ++ putU32 a.Flags

/-- initOutBytes serializes a proto.InitOut (64 bytes; bytes 40..64 stay zero). -/
def initOutBytes (o : InitOut) : List Nat :=
  putU32 o.Major ++ putU32 o.Minor ++ putU32 o.MaxReadahead ++
    putU32 o.Flags ++ putU16 o.MaxBackground ++ putU16 o.CongestionThreshold ++
    putU32 o.MaxWrite ++ putU32 o.TimeGran ++ putU16 o.MaxPages ++
    putU16 o.MapAlignment ++ putU32 o.Flags2 ++ putU32 o.MaxStackDepth ++
    List.replicate 24 0

/-- entryOutBytes serializes a proto.EntryOut (128 bytes). -/
def entryOutBytes (o : EntryOut) : List Nat :=
  putU64 o.NodeID ++ putU64 o.Generation ++ putU64 o.EntryValid ++
    putU64 o.AttrValid ++ putU32 o.EntryValidNsec ++ putU32 o.AttrValidNsec ++
    writeAttr o.Attr

/-- attrOutBytes serializes a proto.AttrOut (104 bytes). -/
def attrOutBytes (o : AttrOut) : List Nat :=
  putU64 o.AttrValid ++ putU32 o.AttrValidNsec ++ putU32 o.Dummy ++
    writeAttr o.Attr

/-- openOutBytes serializes a proto.OpenOut (16 bytes). -/
def openOutBytes (o : OpenOut) : List Nat :=
  putU64 o.Fh ++ putU32 o.OpenFlags ++ putU32 o.Padding

/-- statfsOutBytes serializes a proto.StatfsOut (64 bytes; the trailing
padding and spare words stay zero). -/
def statfsOutBytes (st : StatFSData) : List Nat :=
  putU64 st.Blocks ++ putU64 st.Bfree ++ putU64 st.Bavail ++ putU64 st.Files ++
    putU64 st.Ffree ++ putU32 st.Bsize ++ putU32 st.Namelen ++
    putU32 st.Frsize ++ List.replicate 12 0

/-! ## Directory-entry serialization (serializeDirents, serializeDirentsPlus) -/

/-- The padded size of a plain dirent record: `(DirentSize + namelen + 7) &^ 7`. -/
def paddedSizeOf (e : DirEntry) : Nat :=
  (DirentSize + e.Name.length + 7) / 8 * 8

/-- One serialized plain dirent record: ino, off, namelen, type, name, then
zero padding up to the padded size. -/
def direntRecord (e : DirEntry) : List Nat :=
  putU64 e.Ino ++ putU64 e.Offset ++ putU32 e.Name.length ++ putU32 e.Typ ++
    e.Name ++ List.replicate (paddedSizeOf e - (DirentSize + e.Name.length)) 0

/-- The loop of serializeDirents: append records while the next one still
fits the budget; the comparison is performed on `uint32(len(buf)+paddedSize)`. -/
def serializeDirentsLoop (maxSize : Nat) : List DirEntry → List Nat → List Nat
  | [], buf => buf
  | e :: rest, buf =>
    if (buf.length + paddedSizeOf e) % 4294967296 > maxSize then buf
    else serializeDirentsLoop maxSize rest (buf ++ direntRecord e)

/-- serializeDirents packs directory entries into a byte budget. -/
def serializeDirents (entries : List DirEntry) (maxSize : Nat) : List Nat :=
  serializeDirentsLoop maxSize entries []

/-- The padded size of a direntplus record: `(DirentPlusSize + namelen + 7) &^ 7`. -/
def paddedPlusSizeOf (e : DirEntryPlus) : Nat :=
  (DirentPlusSize + e.Name.length + 7) / 8 * 8

/-- One serialized direntplus record: an EntryOut followed by the Dirent-shaped
suffix. The source writes `entry.Entry.Generation` into the `off` field
(commented "Use generation as offset"). -/
def direntPlusRecord (e : DirEntryPlus) : List Nat :=
  entryOutBytes (entryToProto e.Entry) ++ putU64 e.Entry.Ino ++
    putU64 e.Entry.Generation ++ putU32 e.Name.length ++
    putU32 (fileModeToType e.Entry.Attr.Mode) ++ e.Name ++
    List.replicate (paddedPlusSizeOf e - (DirentPlusSize + e.Name.length)) 0

/-- The loop of serializeDirentsPlus. -/
def serializeDirentsPlusLoop (maxSize : Nat) :
    List DirEntryPlus → List Nat → List Nat
  | [], buf => buf
  | e :: rest, buf =>
    if (buf.length + paddedPlusSizeOf e) % 4294967296 > maxSize then buf
    else serializeDirentsPlusLoop maxSize rest (buf ++ direntPlusRecord e)

/-- serializeDirentsPlus packs directory entries with attributes into a byte
budget. -/
def serializeDirentsPlus (entries : List DirEntryPlus) (maxSize : Nat) :
    List Nat :=
  serializeDirentsPlusLoop maxSize entries []

/-! ## Requests and response framing (src/unnamed/part_000) -/

/-- proto.InHeader as parsed from the wire. -/
structure InHeader where
  Len : Nat
  Opcode : Nat
  Unique : Nat
  NodeID : Nat
  Uid : Nat
  Gid : Nat
  Pid : Nat
deriving Repr

/-- A request as handed to the dispatcher. `body` is the data after the
40-byte header (`bodyBytes`). `slack` models the stale pooled-buffer bytes
beyond `len(r.data)`: the handlers cast `req.body()` to fixed-layout structs
without checking the body length, so a decode of a short body reads
whatever bytes follow in the reused buffer. -/
structure Request where
  header : InHeader
  body : List Nat
  slack : Nat → Nat

/-- One byte of the region a body-struct cast can read: the body byte when in
range, otherwise a stale buffer byte. -/
def bodyByte (req : Request) (i : Nat) : Nat :=
  if i < req.body.length then req.body.getD i 0 % 256 else req.slack i % 256

/-- 32-bit field of a body-struct overlay at offset `i`. -/
def getU32R (req : Request) (i : Nat) : Nat :=
  bodyByte req i + 256 * bodyByte req (i + 1) + 65536 * bodyByte req (i + 2) +
    16777216 * bodyByte req (i + 3)

/-- 64-bit field of a body-struct overlay at offset `i`. -/
def getU64R (req : Request) (i : Nat) : Nat :=
  bodyByte req i + 256 * bodyByte req (i + 1) + 65536 * bodyByte req (i + 2) +
    16777216 * bodyByte req (i + 3) + 4294967296 * bodyByte req (i + 4) +
    1099511627776 * bodyByte req (i + 5) +
    281474976710656 * bodyByte req (i + 6) +
    72057594037927936 * bodyByte req (i + 7)

/-- request.filename(): the body up to (excluding) the first NUL, or the
whole body when it contains no NUL. -/
def filenameBytes : List Nat → List Nat
  | [] => []
  | b :: rest => if b = 0 then [] else b :: filenameBytes rest

/-- newResponse + copy as performed by sendResponse: a 16-byte OutHeader
(`len = uint32(16+payload)`, `error = 0`, `unique`) followed by the payload. -/
def sendResponseBytes (unique : Nat) (payload : List Nat) : List Nat :=
  putU32 ((OutHeaderSize + payload.length) % 4294967296) ++ putU32 0 ++
    putU64 unique ++ payload

/-- newErrorResponse: a header-only frame with `len = 16` and
`error = uint32(errno)` for a (negative) int32 errno. -/
def newErrorResponse (unique : Nat) (errno : Int) : List Nat :=
  putU32 OutHeaderSize ++ putU32 (uint32OfInt errno) ++ putU64 unique

/-! ## Filesystem callback surface (src/unnamed/part_001) -/

/-- The user-supplied filesystem, as the pure functions the dispatcher calls.
Results use `Except GoError` for fallible methods and `Option GoError` for
methods returning only an error. -/
structure Fsys where
  Init : Ctx → Config → Option GoError
  Lookup : Ctx → Nat → List Nat → Except GoError Entry
  GetAttr : Ctx → Nat → Option Nat → Except GoError Attr
  ReadLink : Ctx → Nat → Except GoError (List Nat)
  Open : Ctx → Nat → Nat → Except GoError OpenResponse
  Read : Ctx → Nat → Nat → Int → Nat → Except GoError (List Nat)
  Release : Ctx → Nat → Nat → Option GoError
  OpenDir : Ctx → Nat → Nat → Except GoError OpenResponse
  ReadDir : Ctx → Nat → Nat → Int → Nat → Except GoError (List DirEntry)
  ReadDirPlus : Ctx → Nat → Nat → Int → Nat → Except GoError (List DirEntryPlus)
  ReleaseDir : Ctx → Nat → Nat → Option GoError
  StatFS : Ctx → Nat → Except GoError StatFSData
  Access : Ctx → Nat → Nat → Option GoError

/-- A record of one invocation of a filesystem method, with the decoded
arguments it received. Destroy/Forget/BatchForget return nothing, so the
record itself is the whole observable effect. -/
inductive FsCall where
  | Init (ctx : Ctx) (cfg : Config)
  | Destroy (ctx : Ctx)
  | Lookup (ctx : Ctx) (parent : Nat) (name : List Nat)
  | GetAttr (ctx : Ctx) (ino : Nat) (fh : Option Nat)
  | ReadLink (ctx : Ctx) (ino : Nat)
  | Open (ctx : Ctx) (ino : Nat) (flags : Nat)
  | Read (ctx : Ctx) (ino : Nat) (fh : Nat) (off : Int) (size : Nat)
  | Release (ctx : Ctx) (ino : Nat) (fh : Nat)
  | OpenDir (ctx : Ctx) (ino : Nat) (flags : Nat)
  | ReadDir (ctx : Ctx) (ino : Nat) (fh : Nat) (off : Int) (size : Nat)
  | ReadDirPlus (ctx : Ctx) (ino : Nat) (fh : Nat) (off : Int) (size : Nat)
  | ReleaseDir (ctx : Ctx) (ino : Nat) (fh : Nat)
  | StatFS (ctx : Ctx) (ino : Nat)
  | Access (ctx : Ctx) (ino : Nat) (mask : Nat)
  | Forget (ctx : Ctx) (ino : Nat) (nlookup : Nat)
  | BatchForget (ctx : Ctx) (entries : List ForgetEntry)
deriving DecidableEq, Repr

/-! ## Dispatcher (src/unnamed/part_003 and src/README handlers) -/

/-- The server state a handler can read: the filesystem and the mount
options (after Mount applied defaults). -/
structure ServerM where
  fs : Fsys
  opts : MountOptions

/-- What one handler invocation did: the filesystem calls it made, the
success payload it sent (via sendResponse) if any, the error it returned
to handleRequest if any, whether it hit a nil-pointer dereference
(`panicked`), and the connection/server state it wrote. -/
structure HandlerRet where
  calls : List FsCall
  sent : Option (List Nat)
  err : Option GoError
  panicked : Bool
  stored : Option (Nat × Nat)
  config : Option Config
  initializedSet : Bool
  destroyedSet : Bool
deriving DecidableEq, Repr

/-- A handler that dereferenced `req.body()` while the body was absent:
Go panics before any call or response. -/
def panicRet : HandlerRet := ⟨[], none, none, true, none, none, false, false⟩

/-- newContext: the FUSE context built from the request header. -/
def mkCtx (req : Request) : Ctx :=
  ⟨req.header.Uid, req.header.Gid, req.header.Pid, req.header.Unique⟩

/-- The capability bitmask the library always advertises, accumulated in a
uint32 (each uint64 Cap constant is truncated by `uint32(...)`). -/
def advertisedFlags : Nat :=
  CapAsyncRead % 4294967296 ||| CapParallelDirops % 4294967296 |||
    CapAutoInvalData % 4294967296 ||| CapReaddirplus % 4294967296 |||
    CapReaddirplusAuto % 4294967296 ||| CapCacheSymlinks % 4294967296 |||
    CapExportSupport % 4294967296 ||| CapMaxPages % 4294967296

/-- handleInit (FUSE_INIT). -/
def handleInit (srv : ServerM) (req : Request) : HandlerRet :=
  if req.body.length = 0 then panicRet
  else
    let major := getU32R req 0
    let minor := getU32R req 4
    let maxRA := getU32R req 8
    let kflags := getU32R req 12
    if major ≠ FuseKernelVersion then
      ⟨[], some (initOutBytes
          ⟨FuseKernelVersion, FuseKernelMinorVersion, 0, 0, 0, 0, 0, 0, 0, 0, 0, 0⟩),
        none, false, none, none, false, false⟩
    else if minor < MinSupportedMinor then
      ⟨[], none, some (.errnoVal EPROTO), false, none, none, false, false⟩
    else
      let minor2 := if minor > FuseKernelMinorVersion then FuseKernelMinorVersion else minor
      let cfg : Config :=
        ⟨major, minor2, min maxRA srv.opts.MaxReadahead, srv.opts.MaxWrite,
          DefaultMaxPages⟩
      match srv.fs.Init (mkCtx req) cfg with
      | some e =>
        ⟨[.Init (mkCtx req) cfg], none, some e, false, some (major, minor2),
          some cfg, false, false⟩
      | none =>
        let flags := advertisedFlags &&& kflags
        let out : InitOut :=
          ⟨FuseKernelVersion, minor2, cfg.MaxReadahead, flags,
            srv.opts.MaxBackground, srv.opts.MaxBackground * 3 % 65536 / 4,
            srv.opts.MaxWrite, DefaultTimeGran, DefaultMaxPages, 0, 0, 0⟩
        ⟨[.Init (mkCtx req) cfg], some (initOutBytes out), none, false,
          some (major, minor2), some cfg, true, false⟩

/-- handleDestroy (FUSE_DESTROY). -/
def handleDestroy (srv : ServerM) (req : Request) : HandlerRet :=
  ⟨[.Destroy (mkCtx req)], some [], none, false, none, none, false, true⟩

/-- handleLookup (FUSE_LOOKUP). -/
def handleLookup (srv : ServerM) (req : Request) : HandlerRet :=
  let name := filenameBytes req.body
  match srv.fs.Lookup (mkCtx req) req.header.NodeID name with
  | .error e =>
    ⟨[.Lookup (mkCtx req) req.header.NodeID name], none, some e, false, none,
      none, false, false⟩
  | .ok entry =>
    ⟨[.Lookup (mkCtx req) req.header.NodeID name],
      some (entryOutBytes (entryToProto entry)), none, false, none, none,
      false, false⟩

/-- handleForget (FUSE_FORGET, no reply). -/
def handleForget (srv : ServerM) (req : Request) : HandlerRet :=
  if req.body.length = 0 then panicRet
  else
    ⟨[.Forget (mkCtx req) req.header.NodeID (getU64R req 0)], none, none,
      false, none, none, false, false⟩

/-- The entry-parsing loop of handleBatchForget: `entries` is preallocated
with `in.Count` zero entries and the loop breaks at the first entry not
entirely contained in the body, leaving the remaining slots zero. -/
def batchEntriesFrom (body : List Nat) : Nat → Nat → List ForgetEntry
  | 0, _ => []
  | n + 1, off =>
    if off + ForgetOneSize > body.length then
      List.replicate (n + 1) ⟨0, 0⟩
    else
      ⟨getU64L body off, getU64L body (off + 8)⟩ ::
        batchEntriesFrom body n (off + ForgetOneSize)

/-- handleBatchForget (FUSE_BATCH_FORGET, no reply). -/
def handleBatchForget (srv : ServerM) (req : Request) : HandlerRet :=
  if req.body.length < BatchForgetInSize then
    ⟨[], none, some (.errnoVal EINVAL), false, none, none, false, false⟩
  else
    let count := getU32L req.body 0
    let entries := batchEntriesFrom req.body count BatchForgetInSize
    ⟨[.BatchForget (mkCtx req) entries], none, none, false, none, none,
      false, false⟩

/-- handleGetattr (FUSE_GETATTR). -/
def handleGetattr (srv : ServerM) (req : Request) : HandlerRet :=
  if req.body.length = 0 then panicRet
  else
    let flags := getU32R req 0
    let fh := if flags &&& GetattrFh ≠ 0 then some (getU64R req 8) else none
    match srv.fs.GetAttr (mkCtx req) req.header.NodeID fh with
    | .error e =>
      ⟨[.GetAttr (mkCtx req) req.header.NodeID fh], none, some e, false, none,
        none, false, false⟩
    | .ok attr =>
      ⟨[.GetAttr (mkCtx req) req.header.NodeID fh],
        some (attrOutBytes ⟨1, 0, 0, attrToProto attr⟩), none, false, none,
        none, false, false⟩

/-- handleReadlink (FUSE_READLINK). -/
def handleReadlink (srv : ServerM) (req : Request) : HandlerRet :=
  match srv.fs.ReadLink (mkCtx req) req.header.NodeID with
  | .error e =>
    ⟨[.ReadLink (mkCtx req) req.header.NodeID], none, some e, false, none,
      none, false, false⟩
  | .ok target =>
    ⟨[.ReadLink (mkCtx req) req.header.NodeID], some target, none, false,
      none, none, false, false⟩

/-- handleOpen (FUSE_OPEN). -/
def handleOpen (srv : ServerM) (req : Request) : HandlerRet :=
  if req.body.length = 0 then panicRet
  else
    let flags := getU32R req 0
    match srv.fs.Open (mkCtx req) req.header.NodeID flags with
    | .error e =>
      ⟨[.Open (mkCtx req) req.header.NodeID flags], none, some e, false, none,
        none, false, false⟩
    | .ok resp =>
      ⟨[.Open (mkCtx req) req.header.NodeID flags],
        some (openOutBytes ⟨resp.Handle, resp.Flags, 0⟩), none, false, none,
        none, false, false⟩

/-- handleRead (FUSE_READ). -/
def handleRead (srv : ServerM) (req : Request) : HandlerRet :=
  if req.body.length = 0 then panicRet
  else
    let fh := getU64R req 0
    let off := int64OfUint64 (getU64R req 8)
    let size := getU32R req 16
    match srv.fs.Read (mkCtx req) req.header.NodeID fh off size with
    | .error e =>
      ⟨[.Read (mkCtx req) req.header.NodeID fh off size], none, some e, false,
        none, none, false, false⟩
    | .ok data =>
      ⟨[.Read (mkCtx req) req.header.NodeID fh off size], some data, none,
        false, none, none, false, false⟩

/-- handleRelease (FUSE_RELEASE). -/
def handleRelease (srv : ServerM) (req : Request) : HandlerRet :=
  if req.body.length = 0 then panicRet
  else
    let fh := getU64R req 0
    match srv.fs.Release (mkCtx req) req.header.NodeID fh with
    | some e =>
      ⟨[.Release (mkCtx req) req.header.NodeID fh], none, some e, false, none,
        none, false, false⟩
    | none =>
      ⟨[.Release (mkCtx req) req.header.NodeID fh], some [], none, false,
        none, none, false, false⟩

/-- handleOpendir (FUSE_OPENDIR). -/
def handleOpendir (srv : ServerM) (req : Request) : HandlerRet :=
  if req.body.length = 0 then panicRet
  else
    let flags := getU32R req 0
    match srv.fs.OpenDir (mkCtx req) req.header.NodeID flags with
    | .error e =>
      ⟨[.OpenDir (mkCtx req) req.header.NodeID flags], none, some e, false,
        none, none, false, false⟩
    | .ok resp =>
      ⟨[.OpenDir (mkCtx req) req.header.NodeID flags],
        some (openOutBytes ⟨resp.Handle, resp.Flags, 0⟩), none, false, none,
        none, false, false⟩

/-- handleReaddir (FUSE_READDIR). -/
def handleReaddir (srv : ServerM) (req : Request) : HandlerRet :=
  if req.body.length = 0 then panicRet
  else
    let fh := getU64R req 0
    let off := int64OfUint64 (getU64R req 8)
    let size := getU32R req 16
    match srv.fs.ReadDir (mkCtx req) req.header.NodeID fh off size with
    | .error e =>
      ⟨[.ReadDir (mkCtx req) req.header.NodeID fh off size], none, some e,
        false, none, none, false, false⟩
    | .ok entries =>
      ⟨[.ReadDir (mkCtx req) req.header.NodeID fh off size],
        some (serializeDirents entries size), none, false, none, none,
        false, false⟩

/-- handleReaddirplus (FUSE_READDIRPLUS). -/
def handleReaddirplus (srv : ServerM) (req : Request) : HandlerRet :=
  if req.body.length = 0 then panicRet
  else
    let fh := getU64R req 0
    let off := int64OfUint64 (getU64R req 8)
    let size := getU32R req 16
    match srv.fs.ReadDirPlus (mkCtx req) req.header.NodeID fh off size with
    | .error e =>
      ⟨[.ReadDirPlus (mkCtx req) req.header.NodeID fh off size], none, some e,
        false, none, none, false, false⟩
    | .ok entries =>
      ⟨[.ReadDirPlus (mkCtx req) req.header.NodeID fh off size],
        some (serializeDirentsPlus entries size), none, false, none, none,
        false, false⟩

/-- handleReleasedir (FUSE_RELEASEDIR). -/
def handleReleasedir (srv : ServerM) (req : Request) : HandlerRet :=
  if req.body.length = 0 then panicRet
  else
    let fh := getU64R req 0
    match srv.fs.ReleaseDir (mkCtx req) req.header.NodeID fh with
    | some e =>
      ⟨[.ReleaseDir (mkCtx req) req.header.NodeID fh], none, some e, false,
        none, none, false, false⟩
    | none =>
      ⟨[.ReleaseDir (mkCtx req) req.header.NodeID fh], some [], none, false,
        none, none, false, false⟩

/-- handleStatfs (FUSE_STATFS). -/
def handleStatfs (srv : ServerM) (req : Request) : HandlerRet :=
  match srv.fs.StatFS (mkCtx req) req.header.NodeID with
  | .error e =>
    ⟨[.StatFS (mkCtx req) req.header.NodeID], none, some e, false, none, none,
      false, false⟩
  | .ok st =>
    ⟨[.StatFS (mkCtx req) req.header.NodeID], some (statfsOutBytes st), none,
      false, none, none, false, false⟩

/-- handleAccess (FUSE_ACCESS). -/
def handleAccess (srv : ServerM) (req : Request) : HandlerRet :=
  if req.body.length = 0 then panicRet
  else
    let mask := getU32R req 0
    match srv.fs.Access (mkCtx req) req.header.NodeID mask with
    | some e =>
      ⟨[.Access (mkCtx req) req.header.NodeID mask], none, some e, false,
        none, none, false, false⟩
    | none =>
      ⟨[.Access (mkCtx req) req.header.NodeID mask], some [], none, false,
        none, none, false, false⟩

/-- handleFlush (FUSE_FLUSH): replies empty without calling the filesystem. -/
def handleFlush (srv : ServerM) (req : Request) : HandlerRet :=
  ⟨[], some [], none, false, none, none, false, false⟩

/-- handleInterrupt (FUSE_INTERRUPT): consumed without any reply. -/
def handleInterrupt (srv : ServerM) (req : Request) : HandlerRet :=
  ⟨[], none, none, false, none, none, false, false⟩

/-- The handlers map: opcode to handler, as a lookup returning none for
unknown opcodes. -/
def runHandler (srv : ServerM) (req : Request) : Option HandlerRet :=
  let op := req.header.Opcode
  if op = OpInit then some (handleInit srv req)
  else if op = OpDestroy then some (handleDestroy srv req)
  else if op = OpLookup then some (handleLookup srv req)
  else if op = OpForget then some (handleForget srv req)
  else if op = OpBatchForget then some (handleBatchForget srv req)
  else if op = OpGetattr then some (handleGetattr srv req)
  else if op = OpReadlink then some (handleReadlink srv req)
  else if op = OpOpen then some (handleOpen srv req)
  else if op = OpRead then some (handleRead srv req)
  else if op = OpRelease then some (handleRelease srv req)
  else if op = OpOpendir then some (handleOpendir srv req)
  else if op = OpReaddir then some (handleReaddir srv req)
  else if op = OpReaddirplus then some (handleReaddirplus srv req)
  else if op = OpReleasedir then some (handleReleasedir srv req)
  else if op = OpStatfs then some (handleStatfs srv req)
  else if op = OpAccess then some (handleAccess srv req)
  else if op = OpFlush then some (handleFlush srv req)
  else if op = OpInterrupt then some (handleInterrupt srv req)
  else none

/-- isWriteOp returns true if the opcode is a write operation. -/
def isWriteOp (op : Nat) : Bool :=
  op == OpSetattr || op == OpSymlink || op == OpMknod || op == OpMkdir ||
    op == OpUnlink || op == OpRmdir || op == OpRename || op == OpLink ||
    op == OpWrite || op == OpSetxattr || op == OpRemovexattr ||
    op == OpCreate || op == OpRename2 || op == OpFallocate ||
    op == OpCopyFileRange || op == OpTmpfile

/-- sendError: builds the error frame, except for FORGET and BATCH_FORGET
which never receive a response. -/
def sendErrorFrames (op : Nat) (unique : Nat) (e : GoError) : List (List Nat) :=
  if op = OpForget ∨ op = OpBatchForget then []
  else [newErrorResponse unique (toErrno (some e))]

/-- The observable outcome of handleRequest for one request: filesystem
calls made, response frames written to the device, whether the goroutine
panicked, and connection/server state written. -/
structure HOut where
  calls : List FsCall
  frames : List (List Nat)
  panicked : Bool
  stored : Option (Nat × Nat)
  config : Option Config
  initializedSet : Bool
  destroyedSet : Bool
deriving DecidableEq, Repr

/-- handleRequest dispatches one request: write opcodes are rejected with
EROFS, unknown opcodes with ENOSYS, otherwise the handler runs and a
returned error is sent with sendError. -/
def handleRequest (srv : ServerM) (req : Request) : HOut :=
  let op := req.header.Opcode
  if isWriteOp op then
    ⟨[], sendErrorFrames op req.header.Unique (.errnoVal EROFS), false, none,
      none, false, false⟩
  else
    match runHandler srv req with
    | none =>
      ⟨[], sendErrorFrames op req.header.Unique (.errnoVal ENOSYS), false,
        none, none, false, false⟩
    | some r =>
      if r.panicked then
        ⟨r.calls, [], true, r.stored, r.config, r.initializedSet,
          r.destroyedSet⟩
      else
        ⟨r.calls,
          (match r.sent with
            | some p => [sendResponseBytes req.header.Unique p]
            | none => []) ++
          (match r.err with
            | some e => sendErrorFrames op req.header.Unique e
            | none => []),
          false, r.stored, r.config, r.initializedSet, r.destroyedSet⟩

/-! ## Concrete fixtures used by witnesses and counterexamples -/

/-- The MountOptions Mount installs when the caller leaves them zero. -/
def defaultOpts : MountOptions := ⟨false, 131072, 131072, 12⟩

/-- A zero time. -/
def zeroTime : GoTime := ⟨0, 0⟩

/-- A minimal regular-file attribute record. -/
def okAttr : Attr := ⟨1, 0, 0, zeroTime, zeroTime, zeroTime, 420, 1, 0, 0, 0, 4096⟩

/-- A minimal lookup result. -/
def okEntry : Entry := ⟨2, 0, okAttr, 0, 0⟩

/-- A minimal StatFS result. -/
def okStatfs : StatFSData := ⟨0, 0, 0, 0, 0, 4096, 255, 4096⟩

/-- A tiny concrete filesystem used to instantiate the dispatcher in
witnesses and counterexamples. -/
def trivialFs : Fsys :=
  ⟨fun _ _ => none,
   fun _ _ _ => .ok okEntry,
   fun _ _ _ => .ok okAttr,
   fun _ _ => .ok [47],
   fun _ _ _ => .ok ⟨3, 0⟩,
   fun _ _ _ _ _ => .ok [104, 105],
   fun _ _ _ => none,
   fun _ _ _ => .ok ⟨4, 0⟩,
   fun _ _ _ _ _ => .ok [],
   fun _ _ _ _ _ => .ok [],
   fun _ _ _ => none,
   fun _ _ => .ok okStatfs,
   fun _ _ _ => none⟩

/-- A server over trivialFs with default options. -/
def trivialSrv : ServerM := ⟨trivialFs, defaultOpts⟩

/-! ## Infrastructure lemmas -/

theorem toErrno_EROFS : toErrno (some (.errnoVal EROFS)) = -30 := by decide

theorem toErrno_ENOSYS : toErrno (some (.errnoVal ENOSYS)) = -38 := by decide

theorem toErrno_EPROTO : toErrno (some (.errnoVal EPROTO)) = -71 := by decide

theorem handleRequest_of_runHandler (srv : ServerM) (req : Request)
    (r : HandlerRet) (hw : isWriteOp req.header.Opcode = false)
    (hr : runHandler srv req = some r) :
    handleRequest srv req =
      if r.panicked then
        ⟨r.calls, [], true, r.stored, r.config, r.initializedSet, r.destroyedSet⟩
      else
        ⟨r.calls,
          (match r.sent with
            | some p => [sendResponseBytes req.header.Unique p]
            | none => []) ++
          (match r.err with
            | some e => sendErrorFrames req.header.Opcode req.header.Unique e
            | none => []),
          false, r.stored, r.config, r.initializedSet, r.destroyedSet⟩ := by
  simp [handleRequest, hw, hr]

theorem runHandler_init (srv : ServerM) (req : Request)
    (hop : req.header.Opcode = OpInit) :
    runHandler srv req = some (handleInit srv req) := by
  unfold runHandler
  rw [hop]
  norm_num [OpInit]

theorem runHandler_destroy (srv : ServerM) (req : Request)
    (hop : req.header.Opcode = OpDestroy) :
    runHandler srv req = some (handleDestroy srv req) := by
  unfold runHandler
  rw [hop]
  norm_num [OpInit, OpDestroy]

theorem runHandler_lookup (srv : ServerM) (req : Request)
    (hop : req.header.Opcode = OpLookup) :
    runHandler srv req = some (handleLookup srv req) := by
  unfold runHandler
  rw [hop]
  norm_num [OpInit, OpDestroy, OpLookup]

theorem runHandler_forget (srv : ServerM) (req : Request)
    (hop : req.header.Opcode = OpForget) :
    runHandler srv req = some (handleForget srv req) := by
  unfold runHandler
  rw [hop]
  norm_num [OpInit, OpDestroy, OpLookup, OpForget]

theorem runHandler_batchforget (srv : ServerM) (req : Request)
    (hop : req.header.Opcode = OpBatchForget) :
    runHandler srv req = some (handleBatchForget srv req) := by
  unfold runHandler
  rw [hop]
  norm_num [OpInit, OpDestroy, OpLookup, OpForget, OpBatchForget]

theorem runHandler_getattr (srv : ServerM) (req : Request)
    (hop : req.header.Opcode = OpGetattr) :
    runHandler srv req = some (handleGetattr srv req) := by
  unfold runHandler
  rw [hop]
  norm_num [OpInit, OpDestroy, OpLookup, OpForget, OpBatchForget, OpGetattr]

theorem runHandler_readlink (srv : ServerM) (req : Request)
    (hop : req.header.Opcode = OpReadlink) :
    runHandler srv req = some (handleReadlink srv req) := by
  unfold runHandler
  rw [hop]
  norm_num [OpInit, OpDestroy, OpLookup, OpForget, OpBatchForget, OpGetattr,
    OpReadlink]

theorem runHandler_open (srv : ServerM) (req : Request)
    (hop : req.header.Opcode = OpOpen) :
    runHandler srv req = some (handleOpen srv req) := by
  unfold runHandler
  rw [hop]
  norm_num [OpInit, OpDestroy, OpLookup, OpForget, OpBatchForget, OpGetattr,
    OpReadlink, OpOpen]

theorem runHandler_read (srv : ServerM) (req : Request)
    (hop : req.header.Opcode = OpRead) :
    runHandler srv req = some (handleRead srv req) := by
  unfold runHandler
  rw [hop]
  norm_num [OpInit, OpDestroy, OpLookup, OpForget, OpBatchForget, OpGetattr,
    OpReadlink, OpOpen, OpRead]

theorem runHandler_release (srv : ServerM) (req : Request)
    (hop : req.header.Opcode = OpRelease) :
    runHandler srv req = some (handleRelease srv req) := by
  unfold runHandler
  rw [hop]
  norm_num [OpInit, OpDestroy, OpLookup, OpForget, OpBatchForget, OpGetattr,
    OpReadlink, OpOpen, OpRead, OpRelease]

theorem runHandler_opendir (srv : ServerM) (req : Request)
    (hop : req.header.Opcode = OpOpendir) :
    runHandler srv req = some (handleOpendir srv req) := by
  unfold runHandler
  rw [hop]
  norm_num [OpInit, OpDestroy, OpLookup, OpForget, OpBatchForget, OpGetattr,
    OpReadlink, OpOpen, OpRead, OpRelease, OpOpendir]

theorem runHandler_readdir (srv : ServerM) (req : Request)
    (hop : req.header.Opcode = OpReaddir) :
    runHandler srv req = some (handleReaddir srv req) := by
  unfold runHandler
  rw [hop]
  norm_num [OpInit, OpDestroy, OpLookup, OpForget, OpBatchForget, OpGetattr,
    OpReadlink, OpOpen, OpRead, OpRelease, OpOpendir, OpReaddir]

theorem runHandler_readdirplus (srv : ServerM) (req : Request)
    (hop : req.header.Opcode = OpReaddirplus) :
    runHandler srv req = some (handleReaddirplus srv req) := by
  unfold runHandler
  rw [hop]
  norm_num [OpInit, OpDestroy, OpLookup, OpForget, OpBatchForget, OpGetattr,
    OpReadlink, OpOpen, OpRead, OpRelease, OpOpendir, OpReaddir, OpReaddirplus]

theorem runHandler_releasedir (srv : ServerM) (req : Request)
    (hop : req.header.Opcode = OpReleasedir) :
    runHandler srv req = some (handleReleasedir srv req) := by
  unfold runHandler
  rw [hop]
  norm_num [OpInit, OpDestroy, OpLookup, OpForget, OpBatchForget, OpGetattr,
    OpReadlink, OpOpen, OpRead, OpRelease, OpOpendir, OpReaddir, OpReaddirplus,
    OpReleasedir]

theorem runHandler_statfs (srv : ServerM) (req : Request)
    (hop : req.header.Opcode = OpStatfs) :
    runHandler srv req = some (handleStatfs srv req) := by
  unfold runHandler
  rw [hop]
  norm_num [OpInit, OpDestroy, OpLookup, OpForget, OpBatchForget, OpGetattr,
    OpReadlink, OpOpen, OpRead, OpRelease, OpOpendir, OpReaddir, OpReaddirplus,
    OpReleasedir, OpStatfs]

theorem runHandler_access (srv : ServerM) (req : Request)
    (hop : req.header.Opcode = OpAccess) :
    runHandler srv req = some (handleAccess srv req) := by
  unfold runHandler
  rw [hop]
  norm_num [OpInit, OpDestroy, OpLookup, OpForget, OpBatchForget, OpGetattr,
    OpReadlink, OpOpen, OpRead, OpRelease, OpOpendir, OpReaddir, OpReaddirplus,
    OpReleasedir, OpStatfs, OpAccess]

theorem runHandler_flush (srv : ServerM) (req : Request)
    (hop : req.header.Opcode = OpFlush) :
    runHandler srv req = some (handleFlush srv req) := by
  unfold runHandler
  rw [hop]
  norm_num [OpInit, OpDestroy, OpLookup, OpForget, OpBatchForget, OpGetattr,
    OpReadlink, OpOpen, OpRead, OpRelease, OpOpendir, OpReaddir, OpReaddirplus,
    OpReleasedir, OpStatfs, OpAccess, OpFlush]

theorem runHandler_interrupt (srv : ServerM) (req : Request)
    (hop : req.header.Opcode = OpInterrupt) :
    runHandler srv req = some (handleInterrupt srv req) := by
  unfold runHandler
  rw [hop]
  norm_num [OpInit, OpDestroy, OpLookup, OpForget, OpBatchForget, OpGetattr,
    OpReadlink, OpOpen, OpRead, OpRelease, OpOpendir, OpReaddir, OpReaddirplus,
    OpReleasedir, OpStatfs, OpAccess, OpFlush, OpInterrupt]

theorem isWriteOp_neq_noreply (op : Nat) (hw : isWriteOp op = true) :
    ¬(op = OpForget ∨ op = OpBatchForget) := by
  simp only [isWriteOp, Bool.or_eq_true, beq_iff_eq, OpSetattr, OpSymlink,
    OpMknod, OpMkdir, OpUnlink, OpRmdir, OpRename, OpLink, OpWrite,
    OpSetxattr, OpRemovexattr, OpCreate, OpRename2, OpFallocate,
    OpCopyFileRange, OpTmpfile] at hw
  simp only [OpForget, OpBatchForget]
  rcases hw with ((((((((((((((h | h) | h) | h) | h) | h) | h) | h) | h) | h) |
    h) | h) | h) | h) | h) | h <;> omega

theorem handleRequest_write (srv : ServerM) (req : Request)
    (hw : isWriteOp req.header.Opcode = true) :
    handleRequest srv req =
      ⟨[], [newErrorResponse req.header.Unique (-30)], false, none, none,
        false, false⟩ := by
  simp [handleRequest, hw, sendErrorFrames, isWriteOp_neq_noreply _ hw,
    toErrno_EROFS]

/-- A concrete WRITE request (opcode 16) used as the C1 witness input. -/
def writeReq : Request := ⟨⟨80, 16, 42, 1, 0, 0, 0⟩, List.replicate 40 0, fun _ => 0⟩

/-- C1: for every request whose opcode lies in the write set (SETATTR,
SYMLINK, MKNOD, MKDIR, UNLINK, RMDIR, RENAME, RENAME2, LINK, WRITE,
SETXATTR, REMOVEXATTR, CREATE, FALLOCATE, COPY_FILE_RANGE, TMPFILE), the
dispatcher replies with a single EROFS error frame (errno -30) and never
invokes any filesystem method. -/
theorem claim_C1 (srv : ServerM) (req : Request)
    (h : req.header.Opcode ∈
      [OpSetattr, OpSymlink, OpMknod, OpMkdir, OpUnlink, OpRmdir, OpRename,
       OpRename2, OpLink, OpWrite, OpSetxattr, OpRemovexattr, OpCreate,
       OpFallocate, OpCopyFileRange, OpTmpfile]) :
    (handleRequest srv req).calls = [] ∧
    (handleRequest srv req).frames =
      [newErrorResponse req.header.Unique (-30)] ∧
    (handleRequest srv req).panicked = false := by
  have hw : isWriteOp req.header.Opcode = true := by
    simp only [List.mem_cons, List.not_mem_nil, or_false] at h
    simp only [isWriteOp, Bool.or_eq_true, beq_iff_eq]
    rcases h with h | h | h | h | h | h | h | h | h | h | h | h | h | h | h | h <;>
      simp [h, OpSetattr, OpSymlink, OpMknod, OpMkdir, OpUnlink, OpRmdir,
        OpRename, OpLink, OpWrite, OpSetxattr, OpRemovexattr, OpCreate,
        OpRename2, OpFallocate, OpCopyFileRange, OpTmpfile]
  rw [handleRequest_write srv req hw]
  exact ⟨rfl, rfl, rfl⟩

/-- C1 witness: a concrete WRITE request through the dispatcher over a
concrete filesystem. -/
theorem claim_C1_witness :
    writeReq.header.Opcode ∈
      [OpSetattr, OpSymlink, OpMknod, OpMkdir, OpUnlink, OpRmdir, OpRename,
       OpRename2, OpLink, OpWrite, OpSetxattr, OpRemovexattr, OpCreate,
       OpFallocate, OpCopyFileRange, OpTmpfile] ∧
    ((handleRequest trivialSrv writeReq).calls = [] ∧
     (handleRequest trivialSrv writeReq).frames =
       [newErrorResponse writeReq.header.Unique (-30)] ∧
     (handleRequest trivialSrv writeReq).panicked = false) :=
  ⟨by decide, claim_C1 trivialSrv writeReq (by decide)⟩

/-! ## Per-opcode response-count lemmas (used for the C2 analysis) -/

theorem framesLen_init (srv : ServerM) (req : Request)
    (hop : req.header.Opcode = OpInit)
    (h : (handleRequest srv req).panicked = false) :
    (handleRequest srv req).frames.length = 1 := by
  have hw : isWriteOp req.header.Opcode = false := by rw [hop]; decide
  have hr := runHandler_init srv req hop
  rw [handleRequest_of_runHandler srv req _ hw hr] at h ⊢
  by_cases hb : req.body.length = 0
  · simp [handleInit, hb, panicRet] at h
  · by_cases hmaj : getU32R req 0 = FuseKernelVersion
    · by_cases hmin : getU32R req 4 < MinSupportedMinor
      · simp [handleInit, hb, hmaj, hmin, sendErrorFrames, hop, OpInit,
          OpForget, OpBatchForget]
      · cases hfs : srv.fs.Init (mkCtx req)
            ⟨FuseKernelVersion,
             (if getU32R req 4 > FuseKernelMinorVersion then
                FuseKernelMinorVersion else getU32R req 4),
             min (getU32R req 8) srv.opts.MaxReadahead, srv.opts.MaxWrite,
             DefaultMaxPages⟩ with
        | none => simp [handleInit, hb, hmaj, hmin, hfs]
        | some e =>
          simp [handleInit, hb, hmaj, hmin, hfs, sendErrorFrames, hop, OpInit,
            OpForget, OpBatchForget]
    · simp [handleInit, hb, hmaj]

theorem framesLen_destroy (srv : ServerM) (req : Request)
    (hop : req.header.Opcode = OpDestroy) :
    (handleRequest srv req).frames.length = 1 := by
  have hw : isWriteOp req.header.Opcode = false := by rw [hop]; decide
  have hr := runHandler_destroy srv req hop
  rw [handleRequest_of_runHandler srv req _ hw hr]
  simp [handleDestroy]

theorem framesLen_lookup (srv : ServerM) (req : Request)
    (hop : req.header.Opcode = OpLookup) :
    (handleRequest srv req).frames.length = 1 := by
  have hw : isWriteOp req.header.Opcode = false := by rw [hop]; decide
  have hr := runHandler_lookup srv req hop
  rw [handleRequest_of_runHandler srv req _ hw hr]
  cases hfs : srv.fs.Lookup (mkCtx req) req.header.NodeID
      (filenameBytes req.body) with
  | error e =>
    simp [handleLookup, hfs, sendErrorFrames, hop, OpLookup, OpForget,
      OpBatchForget]
  | ok entry => simp [handleLookup, hfs]

theorem framesLen_forget (srv : ServerM) (req : Request)
    (hop : req.header.Opcode = OpForget)
    (h : (handleRequest srv req).panicked = false) :
    (handleRequest srv req).frames.length = 0 := by
  have hw : isWriteOp req.header.Opcode = false := by rw [hop]; decide
  have hr := runHandler_forget srv req hop
  rw [handleRequest_of_runHandler srv req _ hw hr] at h ⊢
  by_cases hb : req.body.length = 0
  · simp [handleForget, hb, panicRet] at h
  · simp [handleForget, hb]

theorem framesLen_batchforget (srv : ServerM) (req : Request)
    (hop : req.header.Opcode = OpBatchForget) :
    (handleRequest srv req).frames.length = 0 := by
  have hw : isWriteOp req.header.Opcode = false := by rw [hop]; decide
  have hr := runHandler_batchforget srv req hop
  rw [handleRequest_of_runHandler srv req _ hw hr]
  by_cases hb : req.body.length < BatchForgetInSize
  · simp [handleBatchForget, hb, sendErrorFrames, hop, OpForget, OpBatchForget]
  · simp [handleBatchForget, hb]

theorem framesLen_getattr (srv : ServerM) (req : Request)
    (hop : req.header.Opcode = OpGetattr)
    (h : (handleRequest srv req).panicked = false) :
    (handleRequest srv req).frames.length = 1 := by
  have hw : isWriteOp req.header.Opcode = false := by rw [hop]; decide
  have hr := runHandler_getattr srv req hop
  rw [handleRequest_of_runHandler srv req _ hw hr] at h ⊢
  by_cases hb : req.body.length = 0
  · simp [handleGetattr, hb, panicRet] at h
  · cases hfs : srv.fs.GetAttr (mkCtx req) req.header.NodeID
        (if getU32R req 0 &&& GetattrFh = 0 then none
         else some (getU64R req 8)) with
    | error e =>
      simp [handleGetattr, hb, hfs, sendErrorFrames, hop, OpGetattr, OpForget,
        OpBatchForget]
    | ok a => simp [handleGetattr, hb, hfs]

theorem framesLen_readlink (srv : ServerM) (req : Request)
    (hop : req.header.Opcode = OpReadlink) :
    (handleRequest srv req).frames.length = 1 := by
  have hw : isWriteOp req.header.Opcode = false := by rw [hop]; decide
  have hr := runHandler_readlink srv req hop
  rw [handleRequest_of_runHandler srv req _ hw hr]
  cases hfs : srv.fs.ReadLink (mkCtx req) req.header.NodeID with
  | error e =>
    simp [handleReadlink, hfs, sendErrorFrames, hop, OpReadlink, OpForget,
      OpBatchForget]
  | ok target => simp [handleReadlink, hfs]

theorem framesLen_open (srv : ServerM) (req : Request)
    (hop : req.header.Opcode = OpOpen)
    (h : (handleRequest srv req).panicked = false) :
    (handleRequest srv req).frames.length = 1 := by
  have hw : isWriteOp req.header.Opcode = false := by rw [hop]; decide
  have hr := runHandler_open srv req hop
  rw [handleRequest_of_runHandler srv req _ hw hr] at h ⊢
  by_cases hb : req.body.length = 0
  · simp [handleOpen, hb, panicRet] at h
  · cases hfs : srv.fs.Open (mkCtx req) req.header.NodeID (getU32R req 0) with
    | error e =>
      simp [handleOpen, hb, hfs, sendErrorFrames, hop, OpOpen, OpForget,
        OpBatchForget]
    | ok resp => simp [handleOpen, hb, hfs]

theorem framesLen_read (srv : ServerM) (req : Request)
    (hop : req.header.Opcode = OpRead)
    (h : (handleRequest srv req).panicked = false) :
    (handleRequest srv req).frames.length = 1 := by
  have hw : isWriteOp req.header.Opcode = false := by rw [hop]; decide
  have hr := runHandler_read srv req hop
  rw [handleRequest_of_runHandler srv req _ hw hr] at h ⊢
  by_cases hb : req.body.length = 0
  · simp [handleRead, hb, panicRet] at h
  · cases hfs : srv.fs.Read (mkCtx req) req.header.NodeID (getU64R req 0)
        (int64OfUint64 (getU64R req 8)) (getU32R req 16) with
    | error e =>
      simp [handleRead, hb, hfs, sendErrorFrames, hop, OpRead, OpForget,
        OpBatchForget]
    | ok data => simp [handleRead, hb, hfs]

theorem framesLen_release (srv : ServerM) (req : Request)
    (hop : req.header.Opcode = OpRelease)
    (h : (handleRequest srv req).panicked = false) :
    (handleRequest srv req).frames.length = 1 := by
  have hw : isWriteOp req.header.Opcode = false := by rw [hop]; decide
  have hr := runHandler_release srv req hop
  rw [handleRequest_of_runHandler srv req _ hw hr] at h ⊢
  by_cases hb : req.body.length = 0
  · simp [handleRelease, hb, panicRet] at h
  · cases hfs : srv.fs.Release (mkCtx req) req.header.NodeID (getU64R req 0) with
    | some e =>
      simp [handleRelease, hb, hfs, sendErrorFrames, hop, OpRelease, OpForget,
        OpBatchForget]
    | none => simp [handleRelease, hb, hfs]

theorem framesLen_opendir (srv : ServerM) (req : Request)
    (hop : req.header.Opcode = OpOpendir)
    (h : (handleRequest srv req).panicked = false) :
    (handleRequest srv req).frames.length = 1 := by
  have hw : isWriteOp req.header.Opcode = false := by rw [hop]; decide
  have hr := runHandler_opendir srv req hop
  rw [handleRequest_of_runHandler srv req _ hw hr] at h ⊢
  by_cases hb : req.body.length = 0
  · simp [handleOpendir, hb, panicRet] at h
  · cases hfs : srv.fs.OpenDir (mkCtx req) req.header.NodeID (getU32R req 0) with
    | error e =>
      simp [handleOpendir, hb, hfs, sendErrorFrames, hop, OpOpendir, OpForget,
        OpBatchForget]
    | ok resp => simp [handleOpendir, hb, hfs]

theorem framesLen_readdir (srv : ServerM) (req : Request)
    (hop : req.header.Opcode = OpReaddir)
    (h : (handleRequest srv req).panicked = false) :
    (handleRequest srv req).frames.length = 1 := by
  have hw : isWriteOp req.header.Opcode = false := by rw [hop]; decide
  have hr := runHandler_readdir srv req hop
  rw [handleRequest_of_runHandler srv req _ hw hr] at h ⊢
  by_cases hb : req.body.length = 0
  · simp [handleReaddir, hb, panicRet] at h
  · cases hfs : srv.fs.ReadDir (mkCtx req) req.header.NodeID (getU64R req 0)
        (int64OfUint64 (getU64R req 8)) (getU32R req 16) with
    | error e =>
      simp [handleReaddir, hb, hfs, sendErrorFrames, hop, OpReaddir, OpForget,
        OpBatchForget]
    | ok entries => simp [handleReaddir, hb, hfs]

theorem framesLen_readdirplus (srv : ServerM) (req : Request)
    (hop : req.header.Opcode = OpReaddirplus)
    (h : (handleRequest srv req).panicked = false) :
    (handleRequest srv req).frames.length = 1 := by
  have hw : isWriteOp req.header.Opcode = false := by rw [hop]; decide
  have hr := runHandler_readdirplus srv req hop
  rw [handleRequest_of_runHandler srv req _ hw hr] at h ⊢
  by_cases hb : req.body.length = 0
  · simp [handleReaddirplus, hb, panicRet] at h
  · cases hfs : srv.fs.ReadDirPlus (mkCtx req) req.header.NodeID
        (getU64R req 0) (int64OfUint64 (getU64R req 8)) (getU32R req 16) with
    | error e =>
      simp [handleReaddirplus, hb, hfs, sendErrorFrames, hop, OpReaddirplus,
        OpForget, OpBatchForget]
    | ok entries => simp [handleReaddirplus, hb, hfs]

theorem framesLen_releasedir (srv : ServerM) (req : Request)
    (hop : req.header.Opcode = OpReleasedir)
    (h : (handleRequest srv req).panicked = false) :
    (handleRequest srv req).frames.length = 1 := by
  have hw : isWriteOp req.header.Opcode = false := by rw [hop]; decide
  have hr := runHandler_releasedir srv req hop
  rw [handleRequest_of_runHandler srv req _ hw hr] at h ⊢
  by_cases hb : req.body.length = 0
  · simp [handleReleasedir, hb, panicRet] at h
  · cases hfs : srv.fs.ReleaseDir (mkCtx req) req.header.NodeID
        (getU64R req 0) with
    | some e =>
      simp [handleReleasedir, hb, hfs, sendErrorFrames, hop, OpReleasedir,
        OpForget, OpBatchForget]
    | none => simp [handleReleasedir, hb, hfs]

theorem framesLen_statfs (srv : ServerM) (req : Request)
    (hop : req.header.Opcode = OpStatfs) :
    (handleRequest srv req).frames.length = 1 := by
  have hw : isWriteOp req.header.Opcode = false := by rw [hop]; decide
  have hr := runHandler_statfs srv req hop
  rw [handleRequest_of_runHandler srv req _ hw hr]
  cases hfs : srv.fs.StatFS (mkCtx req) req.header.NodeID with
  | error e =>
    simp [handleStatfs, hfs, sendErrorFrames, hop, OpStatfs, OpForget,
      OpBatchForget]
  | ok st => simp [handleStatfs, hfs]

theorem framesLen_access (srv : ServerM) (req : Request)
    (hop : req.header.Opcode = OpAccess)
    (h : (handleRequest srv req).panicked = false) :
    (handleRequest srv req).frames.length = 1 := by
  have hw : isWriteOp req.header.Opcode = false := by rw [hop]; decide
  have hr := runHandler_access srv req hop
  rw [handleRequest_of_runHandler srv req _ hw hr] at h ⊢
  by_cases hb : req.body.length = 0
  · simp [handleAccess, hb, panicRet] at h
  · cases hfs : srv.fs.Access (mkCtx req) req.header.NodeID (getU32R req 0) with
    | some e =>
      simp [handleAccess, hb, hfs, sendErrorFrames, hop, OpAccess, OpForget,
        OpBatchForget]
    | none => simp [handleAccess, hb, hfs]

theorem framesLen_flush (srv : ServerM) (req : Request)
    (hop : req.header.Opcode = OpFlush) :
    (handleRequest srv req).frames.length = 1 := by
  have hw : isWriteOp req.header.Opcode = false := by rw [hop]; decide
  have hr := runHandler_flush srv req hop
  rw [handleRequest_of_runHandler srv req _ hw hr]
  simp [handleFlush]

theorem framesLen_interrupt (srv : ServerM) (req : Request)
    (hop : req.header.Opcode = OpInterrupt) :
    (handleRequest srv req).frames.length = 0 := by
  have hw : isWriteOp req.header.Opcode = false := by rw [hop]; decide
  have hr := runHandler_interrupt srv req hop
  rw [handleRequest_of_runHandler srv req _ hw hr]
  simp [handleInterrupt]

theorem isWriteOp_not_skip (op : Nat) (hw : isWriteOp op = true) :
    ¬(op = OpForget ∨ op = OpBatchForget ∨ op = OpInterrupt) := by
  simp only [isWriteOp, Bool.or_eq_true, beq_iff_eq, OpSetattr, OpSymlink,
    OpMknod, OpMkdir, OpUnlink, OpRmdir, OpRename, OpLink, OpWrite,
    OpSetxattr, OpRemovexattr, OpCreate, OpRename2, OpFallocate,
    OpCopyFileRange, OpTmpfile] at hw
  simp only [OpForget, OpBatchForget, OpInterrupt]
  rcases hw with ((((((((((((((h | h) | h) | h) | h) | h) | h) | h) | h) | h) |
    h) | h) | h) | h) | h) | h <;> omega

/-- A concrete GETATTR request with an entirely absent body: its handler
dereferences a nil pointer, so the request dies with no frame written. -/
def getattrEmptyReq : Request := ⟨⟨40, 3, 9, 1, 0, 0, 0⟩, [], fun _ => 0⟩

/-- A concrete FLUSH request used as the C2 witness input. -/
def flushReq : Request := ⟨⟨64, 25, 8, 1, 0, 0, 0⟩, List.replicate 24 0, fun _ => 0⟩

/-- C2 counterexample: a GETATTR request whose body is absent (the 40-byte
frame is exactly the header). GETATTR is not in the no-reply set, yet zero
response frames are written: the handler panics on the nil body pointer
before it can reply, so the claim that exactly one frame is always written
(with an error frame on decode/handler failure) is false. -/
theorem claim_C2_cex :
    (handleRequest trivialSrv getattrEmptyReq).frames.length = 0 ∧
    (handleRequest trivialSrv getattrEmptyReq).panicked = true ∧
    ¬(getattrEmptyReq.header.Opcode = OpForget ∨
      getattrEmptyReq.header.Opcode = OpBatchForget ∨
      getattrEmptyReq.header.Opcode = OpInterrupt) := by decide

/-- C2 (amended): for every request whose handling does not panic (the
only panics are nil-body dereferences), exactly one response frame is
written, unless the opcode is FORGET, BATCH_FORGET, or INTERRUPT, in which
case none ever is. -/
theorem claim_C2_amended (srv : ServerM) (req : Request)
    (h : (handleRequest srv req).panicked = false) :
    (handleRequest srv req).frames.length =
      (if req.header.Opcode = OpForget ∨ req.header.Opcode = OpBatchForget ∨
          req.header.Opcode = OpInterrupt then 0 else 1) := by
  by_cases hw : isWriteOp req.header.Opcode = true
  · rw [if_neg (isWriteOp_not_skip _ hw), handleRequest_write srv req hw]
    rfl
  · have hw2 : isWriteOp req.header.Opcode = false := by
      revert hw
      cases isWriteOp req.header.Opcode <;> simp
    by_cases h1 : req.header.Opcode = OpInit
    · rw [framesLen_init srv req h1 h, if_neg (by rw [h1]; decide)]
    by_cases h2 : req.header.Opcode = OpDestroy
    · rw [framesLen_destroy srv req h2, if_neg (by rw [h2]; decide)]
    by_cases h3 : req.header.Opcode = OpLookup
    · rw [framesLen_lookup srv req h3, if_neg (by rw [h3]; decide)]
    by_cases h4 : req.header.Opcode = OpForget
    · rw [framesLen_forget srv req h4 h, if_pos (by rw [h4]; decide)]
    by_cases h5 : req.header.Opcode = OpBatchForget
    · rw [framesLen_batchforget srv req h5, if_pos (by rw [h5]; decide)]
    by_cases h6 : req.header.Opcode = OpGetattr
    · rw [framesLen_getattr srv req h6 h, if_neg (by rw [h6]; decide)]
    by_cases h7 : req.header.Opcode = OpReadlink
    · rw [framesLen_readlink srv req h7, if_neg (by rw [h7]; decide)]
    by_cases h8 : req.header.Opcode = OpOpen
    · rw [framesLen_open srv req h8 h, if_neg (by rw [h8]; decide)]
    by_cases h9 : req.header.Opcode = OpRead
    · rw [framesLen_read srv req h9 h, if_neg (by rw [h9]; decide)]
    by_cases h10 : req.header.Opcode = OpRelease
    · rw [framesLen_release srv req h10 h, if_neg (by rw [h10]; decide)]
    by_cases h11 : req.header.Opcode = OpOpendir
    · rw [framesLen_opendir srv req h11 h, if_neg (by rw [h11]; decide)]
    by_cases h12 : req.header.Opcode = OpReaddir
    · rw [framesLen_readdir srv req h12 h, if_neg (by rw [h12]; decide)]
    by_cases h13 : req.header.Opcode = OpReaddirplus
    · rw [framesLen_readdirplus srv req h13 h, if_neg (by rw [h13]; decide)]
    by_cases h14 : req.header.Opcode = OpReleasedir
    · rw [framesLen_releasedir srv req h14 h, if_neg (by rw [h14]; decide)]
    by_cases h15 : req.header.Opcode = OpStatfs
    · rw [framesLen_statfs srv req h15, if_neg (by rw [h15]; decide)]
    by_cases h16 : req.header.Opcode = OpAccess
    · rw [framesLen_access srv req h16 h, if_neg (by rw [h16]; decide)]
    by_cases h17 : req.header.Opcode = OpFlush
    · rw [framesLen_flush srv req h17, if_neg (by rw [h17]; decide)]
    by_cases h18 : req.header.Opcode = OpInterrupt
    · rw [framesLen_interrupt srv req h18, if_pos (by rw [h18]; decide)]
    have hr : runHandler srv req = none := by
      unfold runHandler
      simp [h1, h2, h3, h4, h5, h6, h7, h8, h9, h10, h11, h12, h13, h14, h15,
        h16, h17, h18]
    rw [if_neg (by push_neg; exact ⟨h4, h5, h18⟩)]
    simp [handleRequest, hw2, hr, sendErrorFrames, h4, h5]

/-- C2 witness: a concrete FLUSH request is answered with exactly one frame. -/
theorem claim_C2_witness :
    (handleRequest trivialSrv flushReq).panicked = false ∧
    (handleRequest trivialSrv flushReq).frames.length =
      (if flushReq.header.Opcode = OpForget ∨
          flushReq.header.Opcode = OpBatchForget ∨
          flushReq.header.Opcode = OpInterrupt then 0 else 1) :=
  ⟨by decide, claim_C2_amended trivialSrv flushReq (by decide)⟩

/-! ## C7: short fixed-layout bodies -/

/-- A concrete OPEN request with an entirely absent body. -/
def openEmptyReq : Request := ⟨⟨40, 14, 21, 1, 0, 0, 0⟩, [], fun _ => 0⟩

/-- C7 counterexample: an OPEN request whose body is absent. The claim says
the library replies with EINVAL; instead the handler dereferences the nil
body pointer and no frame at all is written — in particular no EINVAL
error frame (which would be `newErrorResponse 21 (-22)`). -/
theorem claim_C7_cex :
    (handleRequest trivialSrv openEmptyReq).frames = [] ∧
    (handleRequest trivialSrv openEmptyReq).panicked = true ∧
    newErrorResponse 21 (-22) ∉ (handleRequest trivialSrv openEmptyReq).frames := by
  refine ⟨by decide, by decide, ?_⟩
  intro hmem
  rw [show (handleRequest trivialSrv openEmptyReq).frames = [] from by decide] at hmem
  exact List.not_mem_nil _ hmem

/-- C7 (amended): the handlers for reply-carrying opcodes with fixed-layout
bodies (GETATTR, OPEN, OPENDIR, READ, RELEASE, RELEASEDIR, ACCESS) perform
no body-length validation at all: a request whose body is entirely absent
makes the handler dereference a nil pointer, killing the request without
any reply (and a short non-empty body is decoded from whatever stale bytes
follow in the pooled buffer rather than being rejected with EINVAL). -/
theorem claim_C7_amended (srv : ServerM) (req : Request)
    (hop : req.header.Opcode ∈
      [OpGetattr, OpOpen, OpOpendir, OpRead, OpRelease, OpReleasedir, OpAccess])
    (hb : req.body = []) :
    (handleRequest srv req).panicked = true ∧
    (handleRequest srv req).frames = [] := by
  have hblen : req.body.length = 0 := by rw [hb]; rfl
  simp only [List.mem_cons, List.not_mem_nil, or_false] at hop
  rcases hop with h | h | h | h | h | h | h
  · have hw : isWriteOp req.header.Opcode = false := by rw [h]; decide
    rw [handleRequest_of_runHandler srv req _ hw (runHandler_getattr srv req h)]
    simp [handleGetattr, hblen, panicRet]
  · have hw : isWriteOp req.header.Opcode = false := by rw [h]; decide
    rw [handleRequest_of_runHandler srv req _ hw (runHandler_open srv req h)]
    simp [handleOpen, hblen, panicRet]
  · have hw : isWriteOp req.header.Opcode = false := by rw [h]; decide
    rw [handleRequest_of_runHandler srv req _ hw (runHandler_opendir srv req h)]
    simp [handleOpendir, hblen, panicRet]
  · have hw : isWriteOp req.header.Opcode = false := by rw [h]; decide
    rw [handleRequest_of_runHandler srv req _ hw (runHandler_read srv req h)]
    simp [handleRead, hblen, panicRet]
  · have hw : isWriteOp req.header.Opcode = false := by rw [h]; decide
    rw [handleRequest_of_runHandler srv req _ hw (runHandler_release srv req h)]
    simp [handleRelease, hblen, panicRet]
  · have hw : isWriteOp req.header.Opcode = false := by rw [h]; decide
    rw [handleRequest_of_runHandler srv req _ hw
      (runHandler_releasedir srv req h)]
    simp [handleReleasedir, hblen, panicRet]
  · have hw : isWriteOp req.header.Opcode = false := by rw [h]; decide
    rw [handleRequest_of_runHandler srv req _ hw (runHandler_access srv req h)]
    simp [handleAccess, hblen, panicRet]

/-- C7 witness: the amended claim applied to the concrete empty-body OPEN
request. -/
theorem claim_C7_witness :
    openEmptyReq.header.Opcode ∈
      [OpGetattr, OpOpen, OpOpendir, OpRead, OpRelease, OpReleasedir, OpAccess] ∧
    openEmptyReq.body = [] ∧
    ((handleRequest trivialSrv openEmptyReq).panicked = true ∧
     (handleRequest trivialSrv openEmptyReq).frames = []) :=
  ⟨by decide, rfl, claim_C7_amended trivialSrv openEmptyReq (by decide) rfl⟩

/-! ## C5: INIT version negotiation -/

/-- A concrete INIT request: kernel major 7, minor 41, max-readahead 128KiB,
all capability bits offered. -/
def initReq : Request :=
  ⟨⟨104, 26, 1, 0, 0, 0, 0⟩,
   putU32 7 ++ putU32 41 ++ putU32 131072 ++ putU32 4294967295 ++
     List.replicate 48 0,
   fun _ => 0⟩

/-- C5: on INIT (with the body present), (a) a kernel major other than 7 is
answered with an InitOut carrying our supported version 7.41, with no
filesystem call, no stored version and the server left uninitialized;
(b) major 7 with minor below 26 fails with EPROTO (stored version still
unset); (c) otherwise the stored negotiated minor is min(kernel minor, 41),
which always lies between 26 and 41. -/
theorem claim_C5 (srv : ServerM) (req : Request)
    (hop : req.header.Opcode = OpInit) (hb : req.body ≠ []) :
    (getU32R req 0 ≠ 7 →
      (handleRequest srv req).frames =
        [sendResponseBytes req.header.Unique
          (initOutBytes ⟨7, 41, 0, 0, 0, 0, 0, 0, 0, 0, 0, 0⟩)] ∧
      (handleRequest srv req).calls = [] ∧
      (handleRequest srv req).initializedSet = false ∧
      (handleRequest srv req).stored = none) ∧
    (getU32R req 0 = 7 → getU32R req 4 < 26 →
      (handleRequest srv req).frames =
        [newErrorResponse req.header.Unique (-71)] ∧
      (handleRequest srv req).stored = none ∧
      (handleRequest srv req).calls = []) ∧
    (getU32R req 0 = 7 → 26 ≤ getU32R req 4 →
      (handleRequest srv req).stored = some (7, min (getU32R req 4) 41) ∧
      26 ≤ min (getU32R req 4) 41 ∧ min (getU32R req 4) 41 ≤ 41) := by
  have hblen : req.body.length ≠ 0 := by
    simpa [List.length_eq_zero] using hb
  have hw : isWriteOp req.header.Opcode = false := by rw [hop]; decide
  rw [handleRequest_of_runHandler srv req _ hw (runHandler_init srv req hop)]
  have hmin2 : (if getU32R req 4 > FuseKernelMinorVersion then
      FuseKernelMinorVersion else getU32R req 4) = min (getU32R req 4) 41 := by
    simp only [FuseKernelMinorVersion]
    split <;> omega
  refine ⟨?_, ?_, ?_⟩
  · intro hmaj
    simp [handleInit, hblen, hmaj, FuseKernelVersion, FuseKernelMinorVersion]
  · intro hmaj hmin
    simp [handleInit, hblen, FuseKernelVersion, MinSupportedMinor, hmaj, hmin,
      sendErrorFrames, hop, OpInit, OpForget, OpBatchForget, toErrno_EPROTO]
  · intro hmaj hmin
    have hcond1 : ¬(getU32R req 0 ≠ FuseKernelVersion) := by
      simp [FuseKernelVersion, hmaj]
    have hcond2 : ¬(getU32R req 4 < MinSupportedMinor) := by
      simp only [MinSupportedMinor]
      omega
    cases hfs : srv.fs.Init (mkCtx req)
        ⟨7, min (getU32R req 4) 41, min (getU32R req 8) srv.opts.MaxReadahead,
         srv.opts.MaxWrite, DefaultMaxPages⟩ with
    | none =>
      simp [handleInit, hblen, hcond2, hfs, hmin2, hmaj, FuseKernelVersion]
      omega
    | some e =>
      simp [handleInit, hblen, hcond2, hfs, hmin2, hmaj, FuseKernelVersion]
      omega

/-- C5 witness: the concrete INIT request (major 7, minor 41) stores the
negotiated pair (7, 41). -/
theorem claim_C5_witness :
    initReq.header.Opcode = OpInit ∧ initReq.body ≠ [] ∧
    ((handleRequest trivialSrv initReq).stored =
        some (7, min (getU32R initReq 4) 41) ∧
      26 ≤ min (getU32R initReq 4) 41 ∧ min (getU32R initReq 4) 41 ≤ 41) :=
  ⟨by decide, by decide,
   (claim_C5 trivialSrv initReq (by decide) (by decide)).2.2 (by decide)
     (by decide)⟩

/-! ## C10: InitOut extended fields -/

theorem initOutBytes_length (o : InitOut) : (initOutBytes o).length = 64 := by
  simp [initOutBytes, putU32, putU16]

theorem initOutBytes_flags (o : InitOut) :
    getU32L (initOutBytes o) 12 = o.Flags % 4294967296 := by
  simp [initOutBytes, putU32, putU16, getU32L, List.getD]
  omega

theorem initOutBytes_flags2 (o : InitOut) :
    getU32L (initOutBytes o) 32 = o.Flags2 % 4294967296 := by
  simp [initOutBytes, putU32, putU16, getU32L, List.getD]
  omega

theorem initOutBytes_maxStackDepth (o : InitOut) :
    getU32L (initOutBytes o) 36 = o.MaxStackDepth % 4294967296 := by
  simp [initOutBytes, putU32, putU16, getU32L, List.getD]
  omega

theorem sendResponseBytes_length (u : Nat) (p : List Nat) :
    (sendResponseBytes u p).length = 16 + p.length := by
  simp [sendResponseBytes, putU32, putU64]
  omega

theorem sendResponseBytes_drop16 (u : Nat) (p : List Nat) :
    (sendResponseBytes u p).drop 16 = p := by
  simp [sendResponseBytes, putU32, putU64]

theorem newErrorResponse_length (u : Nat) (e : Int) :
    (newErrorResponse u e).length = 16 := by
  simp [newErrorResponse, putU32, putU64]

theorem advertisedFlags_and_idem (k : Nat) :
    (advertisedFlags &&& k) &&& advertisedFlags = advertisedFlags &&& k := by
  rw [Nat.and_comm (advertisedFlags &&& k) advertisedFlags, ← Nat.and_assoc,
    Nat.and_self]

theorem advertisedFlags_and_lt (k : Nat) : advertisedFlags &&& k < 16777216 := by
  have h := Nat.and_le_left (n := advertisedFlags) (m := k)
  have h2 : advertisedFlags < 16777216 := by decide
  omega

/-- C10: every InitOut success frame emitted for an INIT request has
Flags2 = 0 and MaxStackDepth = 0, and its negotiated 32-bit Flags word is a
subset of the library's advertised mask (which lies below bit 24), so no
extended capability above bit 31 — e.g. CapSecurityCtx (bit 32) or
CapPassthrough (bit 39) — is ever advertised or negotiated. -/
theorem claim_C10 (srv : ServerM) (req : Request) (f : List Nat)
    (hop : req.header.Opcode = OpInit)
    (hf : f ∈ (handleRequest srv req).frames)
    (hlen : 16 < f.length) :
    f.length = 80 ∧
    getU32L (f.drop 16) 32 = 0 ∧
    getU32L (f.drop 16) 36 = 0 ∧
    getU32L (f.drop 16) 12 &&& advertisedFlags = getU32L (f.drop 16) 12 ∧
    (getU32L (f.drop 16) 12).testBit 32 = false ∧
    (getU32L (f.drop 16) 12).testBit 39 = false := by
  have hw : isWriteOp req.header.Opcode = false := by rw [hop]; decide
  rw [handleRequest_of_runHandler srv req _ hw (runHandler_init srv req hop)]
    at hf
  by_cases hb : req.body.length = 0
  · simp [handleInit, hb, panicRet] at hf
  · by_cases hmaj : getU32R req 0 = FuseKernelVersion
    · by_cases hmin : getU32R req 4 < MinSupportedMinor
      · simp [handleInit, hb, hmaj, hmin, sendErrorFrames, hop, OpInit,
          OpForget, OpBatchForget] at hf
        rw [hf] at hlen
        rw [newErrorResponse_length] at hlen
        omega
      · have hmin2 : ¬(getU32R req 4 < MinSupportedMinor) := hmin
        cases hfs : srv.fs.Init (mkCtx req)
            ⟨7, min (getU32R req 4) 41,
             min (getU32R req 8) srv.opts.MaxReadahead, srv.opts.MaxWrite,
             DefaultMaxPages⟩ with
        | some e =>
          have hmin3 : (if getU32R req 4 > FuseKernelMinorVersion then
              FuseKernelMinorVersion else getU32R req 4) =
              min (getU32R req 4) 41 := by
            simp only [FuseKernelMinorVersion]
            split <;> omega
          simp [handleInit, hb, hmaj, hmin2, hmin3, hfs, FuseKernelVersion,
            sendErrorFrames, hop, OpInit, OpForget, OpBatchForget] at hf
          rw [hf] at hlen
          rw [newErrorResponse_length] at hlen
          omega
        | none =>
          have hmin3 : (if getU32R req 4 > FuseKernelMinorVersion then
              FuseKernelMinorVersion else getU32R req 4) =
              min (getU32R req 4) 41 := by
            simp only [FuseKernelMinorVersion]
            split <;> omega
          simp only [handleInit, hb, hmaj, hmin2, hmin3, hfs,
            FuseKernelVersion] at hf
          simp [hb, hmin2] at hf
          rw [hf, sendResponseBytes_length, sendResponseBytes_drop16,
            initOutBytes_length, initOutBytes_flags, initOutBytes_flags2,
            initOutBytes_maxStackDepth]
          dsimp only
          have hlt : advertisedFlags &&& getU32R req 12 < 16777216 :=
            advertisedFlags_and_lt _
          refine ⟨rfl, rfl, rfl, ?_, ?_, ?_⟩
          · rw [Nat.mod_eq_of_lt (by omega), advertisedFlags_and_idem]
          · rw [Nat.mod_eq_of_lt (by omega)]
            apply Nat.testBit_lt_two_pow
            omega
          · rw [Nat.mod_eq_of_lt (by omega)]
            apply Nat.testBit_lt_two_pow
            omega
    · have hmaj7 : ¬(getU32R req 0 = 7) := by
        simpa [FuseKernelVersion] using hmaj
      simp [handleInit, hb, hmaj7, FuseKernelVersion, FuseKernelMinorVersion]
        at hf
      rw [hf, sendResponseBytes_length, sendResponseBytes_drop16,
        initOutBytes_length, initOutBytes_flags, initOutBytes_flags2,
        initOutBytes_maxStackDepth]
      refine ⟨rfl, rfl, rfl, by decide, by decide, by decide⟩

/-- C10 witness: the success InitOut frame of the concrete INIT request. -/
theorem claim_C10_witness :
    initReq.header.Opcode = OpInit ∧
    (handleRequest trivialSrv initReq).frames.length = 1 ∧
    ((handleRequest trivialSrv initReq).frames.getD 0 []).length = 80 ∧
    ((handleRequest trivialSrv initReq).frames.getD 0 [] ∈
      (handleRequest trivialSrv initReq).frames) ∧
    (getU32L (((handleRequest trivialSrv initReq).frames.getD 0 []).drop 16)
        32 = 0 ∧
     getU32L (((handleRequest trivialSrv initReq).frames.getD 0 []).drop 16)
        36 = 0) := by
  refine ⟨by decide, by decide, by decide, by decide, ?_⟩
  have h := claim_C10 trivialSrv initReq
    ((handleRequest trivialSrv initReq).frames.getD 0 []) (by decide)
    (by decide) (by decide)
  exact ⟨h.2.1, h.2.2.1⟩

/-! ## C6: BATCH_FORGET entry decoding -/

/-- Modelled from the claim's words: the ForgetOne entries (of the declared
count) that are entirely contained in the request body, decoded in order
from the wire. -/
def wireCompleteEntries (body : List Nat) : List ForgetEntry :=
  (List.range (min (getU32L body 0) ((body.length - 8) / 16))).map
    (fun i => ⟨getU64L body (8 + 16 * i), getU64L body (8 + 16 * i + 8)⟩)

theorem batchEntriesFrom_eq (body : List Nat) (n : Nat) : ∀ off : Nat,
    batchEntriesFrom body n off =
      ((List.range (min n ((body.length - off) / 16))).map
        (fun i => (⟨getU64L body (off + 16 * i),
                    getU64L body (off + 16 * i + 8)⟩ : ForgetEntry))) ++
      List.replicate (n - min n ((body.length - off) / 16)) ⟨0, 0⟩ := by
  induction n with
  | zero => intro off; simp [batchEntriesFrom]
  | succ n ih =>
    intro off
    by_cases h : off + ForgetOneSize > body.length
    · have hq : (body.length - off) / 16 = 0 := by
        simp only [ForgetOneSize] at h
        omega
      simp [batchEntriesFrom, h, hq]
    · have hle : off + 16 ≤ body.length := by
        simp only [ForgetOneSize] at h
        omega
      have hq : (body.length - off) / 16 =
          (body.length - (off + 16)) / 16 + 1 := by
        omega
      rw [batchEntriesFrom, if_neg h]
      simp only [ForgetOneSize]
      rw [ih (off + 16), hq, Nat.succ_min_succ, List.range_succ_eq_map]
      simp only [List.map_cons, List.map_map, Nat.mul_zero, Nat.add_zero,
        List.cons_append]
      congr 1
      congr 1
      · apply List.map_congr_left
        intro i _
        simp only [Function.comp]
        congr 2 <;> omega
      · congr 1
        omega

/-- A BATCH_FORGET request declaring two entries but carrying only one:
count = 2, body = 8-byte header + one 16-byte ForgetOne (node 5, nlookup 3). -/
def bfReq : Request :=
  ⟨⟨64, 42, 77, 0, 0, 0, 0⟩, putU32 2 ++ putU32 0 ++ putU64 5 ++ putU64 3,
   fun _ => 0⟩

/-- A BATCH_FORGET request whose count matches its body exactly. -/
def bfReqExact : Request :=
  ⟨⟨64, 42, 78, 0, 0, 0, 0⟩, putU32 1 ++ putU32 0 ++ putU64 5 ++ putU64 3,
   fun _ => 0⟩

/-- C6 counterexample: for the truncated request bfReq (count 2, one
complete entry), BatchForget is called with a two-element list whose second
entry is the zero entry — not with exactly the complete prefix [⟨5,3⟩]
required by the claim. -/
theorem claim_C6_cex :
    (handleRequest trivialSrv bfReq).calls =
      [FsCall.BatchForget ⟨0, 0, 0, 77⟩ [⟨5, 3⟩, ⟨0, 0⟩]] ∧
    wireCompleteEntries bfReq.body = [⟨5, 3⟩] ∧
    [(⟨5, 3⟩ : ForgetEntry), ⟨0, 0⟩] ≠ [(⟨5, 3⟩ : ForgetEntry)] := by
  refine ⟨by decide, by decide, by decide⟩

/-- C6 (amended): BATCH_FORGET never sends a frame; when the body is at
least 8 bytes, BatchForget is called with a list of exactly Count entries
in which the entries entirely contained in the body are decoded from the
wire and the remaining slots (when the body is truncated) are zero entries
(node-id 0, nlookup 0); when the body is shorter than 8 bytes BatchForget
is not called at all. -/
theorem claim_C6_amended (srv : ServerM) (req : Request)
    (hop : req.header.Opcode = OpBatchForget) :
    (handleRequest srv req).frames = [] ∧
    (req.body.length < 8 → (handleRequest srv req).calls = []) ∧
    (8 ≤ req.body.length →
      (handleRequest srv req).calls =
        [FsCall.BatchForget (mkCtx req)
          (wireCompleteEntries req.body ++
           List.replicate (getU32L req.body 0 -
             min (getU32L req.body 0) ((req.body.length - 8) / 16)) ⟨0, 0⟩)]) := by
  have hw : isWriteOp req.header.Opcode = false := by rw [hop]; decide
  rw [handleRequest_of_runHandler srv req _ hw
    (runHandler_batchforget srv req hop)]
  by_cases hb : req.body.length < BatchForgetInSize
  · have hb8 : req.body.length < 8 := by
      simpa [BatchForgetInSize] using hb
    refine ⟨?_, fun _ => ?_, fun hge => ?_⟩
    · simp [handleBatchForget, hb, sendErrorFrames, hop, OpForget,
        OpBatchForget]
    · simp [handleBatchForget, hb]
    · omega
  · have hb8 : ¬(req.body.length < 8) := by
      simpa [BatchForgetInSize] using hb
    refine ⟨?_, fun hlt => ?_, fun hge => ?_⟩
    · simp [handleBatchForget, hb]
    · omega
    · rw [show (handleBatchForget srv req).panicked = false from by
        simp [handleBatchForget, hb]]
      simp only [handleBatchForget, hb, if_false]
      rw [show BatchForgetInSize = 8 from rfl, batchEntriesFrom_eq]
      simp [wireCompleteEntries]

/-- C6 witness: the amended claim at the exactly-fitting request
bfReqExact. -/
theorem claim_C6_witness :
    bfReqExact.header.Opcode = OpBatchForget ∧ 8 ≤ bfReqExact.body.length ∧
    (handleRequest trivialSrv bfReqExact).frames = [] ∧
    (handleRequest trivialSrv bfReqExact).calls =
      [FsCall.BatchForget (mkCtx bfReqExact)
        (wireCompleteEntries bfReqExact.body ++
         List.replicate (getU32L bfReqExact.body 0 -
           min (getU32L bfReqExact.body 0)
             ((bfReqExact.body.length - 8) / 16)) ⟨0, 0⟩)] :=
  ⟨by decide, by decide,
   (claim_C6_amended trivialSrv bfReqExact (by decide)).1,
   (claim_C6_amended trivialSrv bfReqExact (by decide)).2.2 (by decide)⟩

/-! ## C3: READDIR serialization and its size budget -/

/-- The total padded size of a list of entries. -/
def sumPadded (entries : List DirEntry) : Nat :=
  (entries.map paddedSizeOf).sum

/-- Modelled from the claim's words: the longest prefix of the entries whose
cumulative padded size fits the remaining budget. -/
def greedyTake (budget : Nat) : List DirEntry → List DirEntry
  | [] => []
  | e :: rest =>
    if paddedSizeOf e ≤ budget then e :: greedyTake (budget - paddedSizeOf e) rest
    else []

theorem paddedSizeOf_ge (e : DirEntry) :
    DirentSize + e.Name.length ≤ paddedSizeOf e := by
  simp only [paddedSizeOf, DirentSize]
  omega

theorem paddedSizeOf_mod8 (e : DirEntry) : paddedSizeOf e % 8 = 0 := by
  simp only [paddedSizeOf]
  omega

theorem direntRecord_length (e : DirEntry) :
    (direntRecord e).length = paddedSizeOf e := by
  have h := paddedSizeOf_ge e
  simp only [DirentSize] at h
  simp [direntRecord, putU64, putU32, DirentSize]
  omega

theorem joinRecords_length (l : List DirEntry) :
    (List.join (l.map direntRecord)).length = sumPadded l := by
  induction l with
  | nil => simp [sumPadded]
  | cons e rest ih => simp [sumPadded, direntRecord_length, ih]

theorem greedyTake_sum_le (l : List DirEntry) : ∀ B : Nat,
    sumPadded (greedyTake B l) ≤ B := by
  induction l with
  | nil => intro B; simp [greedyTake, sumPadded]
  | cons e rest ih =>
    intro B
    by_cases hc : paddedSizeOf e ≤ B
    · rw [greedyTake, if_pos hc]
      have h2 := ih (B - paddedSizeOf e)
      simp only [sumPadded, List.map_cons, List.sum_cons] at *
      omega
    · rw [greedyTake, if_neg hc]
      simp [sumPadded]

theorem sumPadded_mod8 (l : List DirEntry) : sumPadded l % 8 = 0 := by
  induction l with
  | nil => simp [sumPadded]
  | cons e rest ih =>
    have h := paddedSizeOf_mod8 e
    simp only [sumPadded, List.map_cons, List.sum_cons] at *
    omega

theorem greedyTake_isPrefix (l : List DirEntry) : ∀ B : Nat,
    ∃ t, greedyTake B l ++ t = l := by
  induction l with
  | nil => intro B; exact ⟨[], rfl⟩
  | cons e rest ih =>
    intro B
    by_cases hc : paddedSizeOf e ≤ B
    · obtain ⟨t, ht⟩ := ih (B - paddedSizeOf e)
      exact ⟨t, by rw [greedyTake, if_pos hc, List.cons_append, ht]⟩
    · exact ⟨e :: rest, by rw [greedyTake, if_neg hc, List.nil_append]⟩

theorem serializeDirentsLoop_eq (B : Nat) (entries : List DirEntry) :
    ∀ buf : List Nat, buf.length + sumPadded entries < 4294967296 →
    serializeDirentsLoop B entries buf =
      buf ++ List.join ((greedyTake (B - buf.length) entries).map direntRecord) := by
  induction entries with
  | nil => intro buf h; simp [serializeDirentsLoop, greedyTake]
  | cons e rest ih =>
    intro buf h
    have hsum : sumPadded (e :: rest) = paddedSizeOf e + sumPadded rest := by
      simp [sumPadded]
    have hid : (buf.length + paddedSizeOf e) % 4294967296 =
        buf.length + paddedSizeOf e := Nat.mod_eq_of_lt (by omega)
    have hge := paddedSizeOf_ge e
    simp only [DirentSize] at hge
    by_cases hc : (buf.length + paddedSizeOf e) % 4294967296 > B
    · rw [serializeDirentsLoop, if_pos hc]
      rw [hid] at hc
      rw [greedyTake, if_neg (by omega)]
      simp
    · rw [serializeDirentsLoop, if_neg hc]
      rw [hid] at hc
      push_neg at hc
      rw [ih (buf ++ direntRecord e)
        (by rw [List.length_append, direntRecord_length]; omega)]
      rw [greedyTake, if_pos (by omega)]
      rw [List.length_append, direntRecord_length]
      rw [show B - (buf.length + paddedSizeOf e) =
        B - buf.length - paddedSizeOf e from by omega]
      simp

/-- A directory entry whose padded record size is exactly 2^32: name length
2^32 - 24. -/
def bigName : List Nat := List.replicate 4294967272 97

/-- The entry that overflows the 32-bit budget comparison. -/
def bigEntry : DirEntry := ⟨1, 0, 8, bigName⟩

theorem bigName_length : bigName.length = 4294967272 :=
  List.length_replicate 4294967272 97

theorem bigEntry_name : bigEntry.Name = bigName := rfl

theorem bigEntry_padded : paddedSizeOf bigEntry = 4294967296 := by
  rw [paddedSizeOf, bigEntry_name, bigName_length]
  norm_num [DirentSize]

/-- C3 counterexample: with a size budget of 0 bytes, serializing the single
entry bigEntry (name length 2^32 - 24, padded record size 2^32) emits the
whole 2^32-byte record, because the budget check truncates
`len(buf)+paddedSize` to uint32, where 2^32 wraps to 0 ≤ budget. The claim
that the emitted length never exceeds the budget is therefore false. -/
theorem claim_C3_cex : ¬((serializeDirents [bigEntry] 0).length ≤ 0) := by
  have hrec : (direntRecord bigEntry).length = 4294967296 := by
    rw [direntRecord_length, bigEntry_padded]
  have hser : serializeDirents [bigEntry] 0 = direntRecord bigEntry := by
    rw [serializeDirents]
    simp only [serializeDirentsLoop]
    rw [List.length_nil, bigEntry_padded]
    rw [if_neg (by norm_num)]
    exact List.nil_append _
  rw [hser, hrec]
  omega

/-- C3 (amended): provided the total padded size of the entry list is below
2^32 (so the uint32 budget comparison cannot wrap), READDIR serialization
emits exactly the concatenated padded records of the longest prefix of the
entries whose cumulative padded size does not exceed the budget B, in input
order and without splitting a record; the emitted length is at most B and is
a multiple of 8, every record's length is its padded size
((24 + namelen + 7) & ~7, a multiple of 8), so every record starts 8-byte
aligned. -/
theorem claim_C3_amended (entries : List DirEntry) (B : Nat)
    (h : sumPadded entries < 4294967296) :
    serializeDirents entries B =
      List.join ((greedyTake B entries).map direntRecord) ∧
    (serializeDirents entries B).length ≤ B ∧
    (serializeDirents entries B).length % 8 = 0 ∧
    (∃ t, greedyTake B entries ++ t = entries) ∧
    (∀ e ∈ greedyTake B entries,
      (direntRecord e).length = paddedSizeOf e ∧ paddedSizeOf e % 8 = 0) := by
  have hmain : serializeDirents entries B =
      List.join ((greedyTake B entries).map direntRecord) := by
    rw [serializeDirents, serializeDirentsLoop_eq B entries [] (by simpa using h)]
    simp
  refine ⟨hmain, ?_, ?_, greedyTake_isPrefix entries B, ?_⟩
  · rw [hmain, joinRecords_length]
    exact greedyTake_sum_le entries B
  · rw [hmain, joinRecords_length]
    exact sumPadded_mod8 _
  · intro e _
    exact ⟨direntRecord_length e, paddedSizeOf_mod8 e⟩

/-- Three one-character directory entries (padded records of 32 bytes each). -/
def smallEntries : List DirEntry :=
  [⟨1, 1, 4, [46]⟩, ⟨1, 2, 4, [46, 46]⟩, ⟨2, 3, 8, [104]⟩]

/-- C3 witness: with budget 64, exactly the first two of the three
32-byte-padded records are emitted, 64 bytes total, 8-byte aligned. -/
theorem claim_C3_witness :
    sumPadded smallEntries < 4294967296 ∧
    (serializeDirents smallEntries 64 =
       List.join ((greedyTake 64 smallEntries).map direntRecord) ∧
     (serializeDirents smallEntries 64).length ≤ 64 ∧
     (serializeDirents smallEntries 64).length % 8 = 0 ∧
     (∃ t, greedyTake 64 smallEntries ++ t = smallEntries) ∧
     (∀ e ∈ greedyTake 64 smallEntries,
       (direntRecord e).length = paddedSizeOf e ∧ paddedSizeOf e % 8 = 0)) ∧
    greedyTake 64 smallEntries = smallEntries.take 2 ∧
    (serializeDirents smallEntries 64).length = 64 :=
  ⟨by decide, claim_C3_amended smallEntries 64 (by decide), by decide, by decide⟩

/-! ## C4: READDIRPLUS suffix off field -/

/-- A directory-plus entry with inode 2, generation 7, name "a". Note that
DirEntryPlus carries no per-entry offset cookie at all. -/
def plusEntry : DirEntryPlus := ⟨⟨2, 7, okAttr, 0, 0⟩, [97]⟩

set_option maxRecDepth 4000 in
/-- C4: evaluating serializeDirentsPlus at a concrete entry shows the bug
the claim describes as wrong: the record is EntryOut (128 bytes, generation
7 at offset 8) followed by the Dirent-shaped suffix (at offset 128), whose
`off` field (offset 136) holds the inode generation 7 — the source writes
`entry.Entry.Generation` there ("Use generation as offset") — instead of
the per-entry offset cookie the kernel echoes back as the resume position
(DirEntryPlus does not even carry such a cookie). The suffix inode field
(offset 128) is 2 as expected. -/
theorem claim_C4_bug :
    plusEntry.Entry.Generation = 7 ∧
    (serializeDirentsPlus [plusEntry] 512).length = 160 ∧
    getU64L (serializeDirentsPlus [plusEntry] 512) 128 = 2 ∧
    getU64L (serializeDirentsPlus [plusEntry] 512) 136 = 7 ∧
    getU64L (serializeDirentsPlus [plusEntry] 512) 8 = 7 := by decide

/-! ## C9: duration round trip -/

/-- The claim's reverse conversion: `sec * 1s + nsec * 1ns`. -/
def reconstructTimespec (p : Nat × Nat) : Int :=
  (p.1 : Int) * 1000000000 + (p.2 : Int)

/-- C9 counterexample: the round trip is not the identity for every
duration. At d = -1ns, Go truncating division gives sec = 0 and
`uint32(-1 % 1e9)` wraps to 4294967295, so the reconstruction is
4294967295 ns, not -1 ns. (Also: durations are int64 nanoseconds, so no
duration comes anywhere near 2^64 seconds.) -/
theorem claim_C9_cex : reconstructTimespec (durationToTimespec (-1)) ≠ (-1) := by
  decide

/-- C9 (amended): for every nonnegative duration (all representable
durations are below 2^63 nanoseconds, about 292 years — far below 2^64
seconds), converting with durationToTimespec and back via
`sec * 1s + nsec * 1ns` is the identity. -/
theorem claim_C9_amended (d : Int) (h0 : 0 ≤ d)
    (h1 : d < 9223372036854775808) :
    reconstructTimespec (durationToTimespec d) = d := by
  unfold durationToTimespec reconstructTimespec
  have h2 : d.tdiv 1000000000 = d / 1000000000 :=
    Int.tdiv_eq_ediv h0 (by norm_num)
  have h3 : d.tmod 1000000000 = d % 1000000000 :=
    Int.tmod_eq_emod h0 (by norm_num)
  rw [h2, h3]
  have h4 : (0 : Int) ≤ d / 1000000000 := Int.ediv_nonneg h0 (by norm_num)
  have h5 : d / 1000000000 < 18446744073709551616 := by omega
  have h6 : (0 : Int) ≤ d % 1000000000 := Int.emod_nonneg d (by norm_num)
  have h7 : d % 1000000000 < 4294967296 := by omega
  rw [Int.emod_eq_of_lt h4 h5, Int.emod_eq_of_lt h6 h7]
  simp only [Int.toNat_of_nonneg h4, Int.toNat_of_nonneg h6]
  omega

/-- C9 witness: the round trip at the concrete duration 5.000000007 s. -/
theorem claim_C9_witness :
    (0 : Int) ≤ 5000000007 ∧ (5000000007 : Int) < 9223372036854775808 ∧
    reconstructTimespec (durationToTimespec 5000000007) = 5000000007 :=
  ⟨by norm_num, by norm_num,
   claim_C9_amended 5000000007 (by norm_num) (by norm_num)⟩

/-! ## C8: OutHeader fields of built frames -/

/-- The errno values whose int32 image is nonpositive: everything below
2^31 (after the uint32 truncation Go applies). -/
def errnoFits : GoError → Prop
  | .errnoVal n => n % 4294967296 ≤ 2147483648
  | _ => True

theorem toErrno_nonpos_of_fits (e : GoError) (he : errnoFits e) :
    toErrno (some e) ≤ 0 := by
  cases e <;> simp_all [toErrno, errnoFits, int32Neg, int32OfUint32, ENOENT,
    EEXIST, EACCES, EBADF, EINVAL, EINTR, ETIMEDOUT, EIOVal] <;>
    split <;> omega

theorem sendResponseBytes_lenField (u : Nat) (p : List Nat) :
    getU32L (sendResponseBytes u p) 0 =
      (OutHeaderSize + p.length) % 4294967296 := by
  simp [sendResponseBytes, putU32, putU64, getU32L, List.getD]
  omega

theorem sendResponseBytes_errField (u : Nat) (p : List Nat) :
    getU32L (sendResponseBytes u p) 4 = 0 := by
  simp [sendResponseBytes, putU32, putU64, getU32L, List.getD]

theorem sendResponseBytes_unique (u : Nat) (p : List Nat) :
    getU64L (sendResponseBytes u p) 8 = u % 18446744073709551616 := by
  simp [sendResponseBytes, putU32, putU64, getU64L, List.getD]
  omega

theorem newErrorResponse_lenField (u : Nat) (e : Int) :
    getU32L (newErrorResponse u e) 0 = 16 := by
  simp [newErrorResponse, putU32, putU64, getU32L, List.getD, OutHeaderSize]

theorem newErrorResponse_unique (u : Nat) (e : Int) :
    getU64L (newErrorResponse u e) 8 = u % 18446744073709551616 := by
  simp [newErrorResponse, putU32, putU64, getU64L, List.getD]
  omega

/-- Every frame handleRequest ever writes carries the request's unique in
its OutHeader: the dispatcher only builds frames with sendResponse and
sendError, both stamped from the request header. -/
theorem handleRequest_frames_unique (srv : ServerM) (req : Request)
    (f : List Nat) (hf : f ∈ (handleRequest srv req).frames) :
    getU64L f 8 = req.header.Unique % 18446744073709551616 := by
  unfold handleRequest at hf
  by_cases hw : isWriteOp req.header.Opcode
  · simp only [hw, if_true] at hf
    simp only [sendErrorFrames] at hf
    split at hf
    · simp at hf
    · simp at hf
      rw [hf, newErrorResponse_unique]
  · simp only [hw, Bool.false_eq_true, if_false] at hf
    cases hr : runHandler srv req with
    | none =>
      rw [hr] at hf
      simp only [sendErrorFrames] at hf
      split at hf
      · simp at hf
      · simp at hf
        rw [hf, newErrorResponse_unique]
    | some r =>
      rw [hr] at hf
      by_cases hp : r.panicked
      · simp [hp] at hf
      · simp only [hp, Bool.false_eq_true, if_false, List.mem_append] at hf
        rcases hf with hf | hf
        · cases hs : r.sent with
          | none => rw [hs] at hf; simp at hf
          | some p =>
            rw [hs] at hf
            simp at hf
            rw [hf, sendResponseBytes_unique]
        · cases herr : r.err with
          | none => rw [herr] at hf; simp at hf
          | some e =>
            rw [herr] at hf
            simp only [sendErrorFrames] at hf
            split at hf
            · simp at hf
            · simp at hf
              rw [hf, newErrorResponse_unique]

/-- The huge payload that overflows the 32-bit len field: 2^32 - 16 bytes. -/
def bigPayload : List Nat := List.replicate 4294967280 0

/-- A filesystem whose ReadLink answers with the 2^32-16-byte target. -/
def hugeFs : Fsys :=
  ⟨fun _ _ => none,
   fun _ _ _ => .ok okEntry,
   fun _ _ _ => .ok okAttr,
   fun _ _ => .ok bigPayload,
   fun _ _ _ => .ok ⟨3, 0⟩,
   fun _ _ _ _ _ => .ok [],
   fun _ _ _ => none,
   fun _ _ _ => .ok ⟨4, 0⟩,
   fun _ _ _ _ _ => .ok [],
   fun _ _ _ _ _ => .ok [],
   fun _ _ _ => none,
   fun _ _ => .ok okStatfs,
   fun _ _ _ => none⟩

/-- A READLINK request (its handler reads no body). -/
def readlinkReq : Request := ⟨⟨40, 5, 11, 1, 0, 0, 0⟩, [], fun _ => 0⟩

theorem bigPayload_length : bigPayload.length = 4294967280 :=
  List.length_replicate 4294967280 0

/-- C8 counterexample: serving the READLINK request over hugeFs writes the
success frame for the 2^32-16-byte target; that frame is 2^32 bytes long
but its OutHeader len field is uint32(2^32) = 0, so len does not equal the
actual frame length. -/
theorem claim_C8_cex :
    (handleRequest ⟨hugeFs, defaultOpts⟩ readlinkReq).frames =
      [sendResponseBytes 11 bigPayload] ∧
    ¬(getU32L (sendResponseBytes 11 bigPayload) 0 =
        (sendResponseBytes 11 bigPayload).length) := by
  constructor
  · have hw : isWriteOp readlinkReq.header.Opcode = false := by decide
    rw [handleRequest_of_runHandler _ _ _ hw
      (runHandler_readlink _ _ (by decide))]
    rw [show handleReadlink ⟨hugeFs, defaultOpts⟩ readlinkReq =
        ⟨[.ReadLink (mkCtx readlinkReq) readlinkReq.header.NodeID],
          some bigPayload, none, false, none, none, false, false⟩ from rfl]
    rfl
  · rw [sendResponseBytes_lenField, sendResponseBytes_length,
      bigPayload_length]
    norm_num [OutHeaderSize]

/-- C8 (amended): every success frame whose payload is shorter than
2^32 - 16 bytes has len equal to the frame's actual byte length (16 plus
the payload length) and error 0; every error frame is exactly 16 bytes
with len 16 and a nonpositive error (for errno values that fit in int32);
and every frame the dispatcher writes for a request carries the request's
unique. -/
theorem claim_C8_amended (u : Nat) (p : List Nat) (e : GoError)
    (srv : ServerM) (req : Request) (f : List Nat)
    (hp : 16 + p.length < 4294967296) (he : errnoFits e)
    (hf : f ∈ (handleRequest srv req).frames) :
    ((sendResponseBytes u p).length = 16 + p.length ∧
     getU32L (sendResponseBytes u p) 0 = (sendResponseBytes u p).length ∧
     getU32L (sendResponseBytes u p) 4 = 0 ∧
     getU64L (sendResponseBytes u p) 8 = u % 18446744073709551616) ∧
    ((newErrorResponse u (toErrno (some e))).length = 16 ∧
     getU32L (newErrorResponse u (toErrno (some e))) 0 = 16 ∧
     toErrno (some e) ≤ 0 ∧
     getU64L (newErrorResponse u (toErrno (some e))) 8 =
       u % 18446744073709551616) ∧
    getU64L f 8 = req.header.Unique % 18446744073709551616 := by
  refine ⟨⟨sendResponseBytes_length u p, ?_, sendResponseBytes_errField u p,
    sendResponseBytes_unique u p⟩,
    ⟨newErrorResponse_length u _, newErrorResponse_lenField u _,
     toErrno_nonpos_of_fits e he, newErrorResponse_unique u _⟩,
    handleRequest_frames_unique srv req f hf⟩
  rw [sendResponseBytes_lenField, sendResponseBytes_length]
  simp only [OutHeaderSize]
  omega

/-- C8 witness: the amended claim at a concrete payload, errno, and a
FLUSH request producing one frame. -/
theorem claim_C8_witness :
    16 + [1, 2, 3].length < 4294967296 ∧
    errnoFits (.errnoVal 2) ∧
    ((handleRequest trivialSrv flushReq).frames.getD 0 []) ∈
      (handleRequest trivialSrv flushReq).frames ∧
    (((sendResponseBytes 5 [1, 2, 3]).length = 16 + [1, 2, 3].length ∧
      getU32L (sendResponseBytes 5 [1, 2, 3]) 0 =
        (sendResponseBytes 5 [1, 2, 3]).length ∧
      getU32L (sendResponseBytes 5 [1, 2, 3]) 4 = 0 ∧
      getU64L (sendResponseBytes 5 [1, 2, 3]) 8 =
        5 % 18446744073709551616) ∧
     ((newErrorResponse 5 (toErrno (some (.errnoVal 2)))).length = 16 ∧
      getU32L (newErrorResponse 5 (toErrno (some (.errnoVal 2)))) 0 = 16 ∧
      toErrno (some (.errnoVal 2)) ≤ 0 ∧
      getU64L (newErrorResponse 5 (toErrno (some (.errnoVal 2)))) 8 =
        5 % 18446744073709551616) ∧
     getU64L ((handleRequest trivialSrv flushReq).frames.getD 0 []) 8 =
       flushReq.header.Unique % 18446744073709551616) :=
  ⟨by decide, by norm_num [errnoFits], by decide,
   claim_C8_amended 5 [1, 2, 3] (.errnoVal 2) trivialSrv flushReq
     ((handleRequest trivialSrv flushReq).frames.getD 0 [])
     (by decide) (by norm_num [errnoFits]) (by decide)⟩

end Rofuse
